import Mathlib

/-!
Verification of the Karma Claims backend (`src/app.py`, `src/war_room.py`)
against its specification.

The Python source is shallowly embedded below. Strings are Lean `String`s
(lists of characters); Python float amounts are modelled as exact rationals
(`ℚ`); functions that raise exceptions return `Option`/`Except`; the
external Generation/Embedding/Search services are modelled as oracles
passed in as arguments. Each embedded definition mirrors the function of
the same name in the source, and the text constants are transcribed from
`app.py` character for character (a literal `{` / `}` is written with the
`\x7b` / `\x7d` escapes).
-/

set_option maxRecDepth 16384

/-! ## Generic string utilities (list-of-characters level) -/

/-- The characters Python's `str.strip()` removes (ASCII whitespace). -/
def pyWsChar (c : Char) : Bool :=
  c == ' ' || c == '\t' || c == '\n' || c == '\r' || c == '\x0b' || c == '\x0c'

/-- Python `str.strip()`: drop leading and trailing whitespace. -/
def pyStripL (l : List Char) : List Char :=
  ((l.dropWhile pyWsChar).reverse.dropWhile pyWsChar).reverse

/-- Python `str.strip()` on a `String`. -/
def pyStrip (s : String) : String := String.mk (pyStripL s.data)

/-- `hasPre s p`: does `s` start with the pattern `p`. -/
def hasPre : List Char → List Char → Bool
  | _, [] => true
  | [], _ :: _ => false
  | c :: s, d :: p => c == d && hasPre s p

/-- `occursL p s`: does `p` occur in `s` as a contiguous substring
(Python's `p in s`). -/
def occursL (p : List Char) : List Char → Bool
  | [] => p.isEmpty
  | c :: t => hasPre (c :: t) p || occursL p t

/-- Python `p in s` on `String`s: `p` occurs somewhere in `s`. -/
def strOccurs (s p : String) : Bool := occursL p.data s.data

/-- `p` matches in `s` at character position `i`. -/
def matchAt (s p : List Char) (i : ℕ) : Bool := hasPre (s.drop i) p

/-- The number of character positions of `s` at which `p` matches. -/
def countOccL (s p : List Char) : ℕ :=
  (List.range s.length).countP fun i => matchAt s p i

/-- The number of positions of `s` at which the substring `p` occurs. -/
def strCount (s p : String) : ℕ := countOccL s.data p.data

/-- The text before the first occurrence of `p` (all of the text when `p`
does not occur): Python `s.split(p)[0]`. -/
def beforeFirstL (p : List Char) : List Char → List Char
  | [] => []
  | c :: t => if hasPre (c :: t) p then [] else c :: beforeFirstL p t

/-- Python `s.split(p)[0]` on `String`s. -/
def beforeFirst (s p : String) : String := String.mk (beforeFirstL p.data s.data)

/-- The text after the end of the first occurrence of `p` (empty when `p`
does not occur). -/
def afterFirstL (p : List Char) : List Char → List Char
  | [] => []
  | c :: t => if hasPre (c :: t) p then (c :: t).drop p.length else afterFirstL p t

/-- Python `s.split(sep)` for a one-character separator. -/
def pySplitChar (sep : Char) : List Char → List (List Char)
  | [] => [[]]
  | c :: t =>
    match pySplitChar sep t with
    | [] => [[c]]
    | h :: r => if c == sep then [] :: h :: r else (c :: h) :: r

/-- Python `str.lower()` (ASCII case folding, which covers every character
the denylist scan compares against). -/
def pyLower (s : String) : String := String.mk (s.data.map Char.toLower)

/-- `noPreSuffix a p`: no nonempty proper prefix of `p` is a suffix of `a`
(checked as: for no proper nonempty suffix `arev`-prefix …); concretely,
`a` does not end with `p.take k` for any `0 < k < p.length`.  `arev` is
`a.reverse`; the check walks the reversed prefixes of `p` incrementally. -/
def noPreSuffixAux (arev : List Char) (revPre : List Char) : List Char → Bool
  | [] => true
  | [_] => true
  | c :: rest => !(hasPre arev (c :: revPre)) && noPreSuffixAux arev (c :: revPre) rest

/-- No `p.take k` with `0 < k < p.length` is a suffix of `a`. -/
def noPreSuffix (a p : List Char) : Bool := noPreSuffixAux a.reverse [] p

/-- `boundedCross n m p`: for every `k` with `0 < k ≤ n` and `k < p.length`,
the suffix `p.drop k` is neither a prefix of `m` nor an extension of `m`.
Then no list that starts with `m` can start with `p.drop k` for such `k`. -/
def boundedCross (n : ℕ) (m p : List Char) : Bool :=
  (List.range (n + 1)).all fun k =>
    k == 0 || decide (p.length ≤ k) ||
      (!(hasPre m (p.drop k)) && !(hasPre (p.drop k) m))

/-! ## `src/app.py` — bot protection and validation (section 4 of the file) -/

/-- `_INJECTION_PATTERNS` of `app.py`. -/
def injectionPatterns : List String :=
  ["ignore above", "ignore previous", "disregard", "system:",
   "###", "---", "```", "<|", "|>", "prompt:", "assistant:",
   "override", "jailbreak", "forget instructions"]

/-- The denylist scan of `DisputeRequest.sanitize_and_truncate`: some
pattern occurs in the lower-cased text. -/
def hasInjection (v : String) : Bool :=
  injectionPatterns.any fun p => strOccurs (pyLower v) p

/-- `DisputeRequest.sanitize_and_truncate`: reject (raise `ValueError`,
modelled as `none`) when an injection pattern occurs in the lower-cased
narrative, else return the first 1000 characters, stripped. -/
def sanitizeAndTruncate (v : String) : Option String :=
  if hasInjection v then none
  else some (pyStrip (String.mk (v.data.take 1000)))

/-- The characters `DisputeRequest.validate_amount` keeps:
`x.isdigit() or x == '.'`. -/
def isAmountChar (c : Char) : Bool := c.isDigit || c == '.'

/-- The sanitization step of `validate_amount`:
`''.join(filter(lambda x: x.isdigit() or x == '.', str(v)))`. -/
def stripAmount (s : String) : String := String.mk (s.data.filter isAmountChar)

/-- The natural number denoted by a list of decimal digits (most
significant first; empty list denotes 0). -/
def digitsVal (l : List Char) : ℕ := l.foldl (fun a c => 10 * a + (c.toNat - 48)) 0

/-- The integer part of a digits-and-dots string: the digits before the
first `'.'`. -/
def intPart (l : List Char) : List Char := l.takeWhile fun c => !(c == '.')

/-- The fractional digits of a digits-and-dots string: what follows the
first `'.'`. -/
def fracPart (l : List Char) : List Char := (l.dropWhile fun c => !(c == '.')).drop 1

/-- The rational value of a digits-and-dots decimal numeral. -/
def ratValue (l : List Char) : ℚ :=
  (digitsVal (intPart l) : ℚ) + (digitsVal (fracPart l) : ℚ) / (10 : ℚ) ^ (fracPart l).length

/-- Python `float(clean)` restricted to the digits-and-dots strings
`validate_amount` produces: defined (with its exact rational value —
floats are modelled as exact rationals) iff the string has at least one
digit and at most one dot, else `none` (the `ValueError` branch). -/
def parseAmount? (l : List Char) : Option ℚ :=
  if l.all isAmountChar && l.any Char.isDigit && decide (l.countP (fun c => c == '.') ≤ 1)
  then some (ratValue l) else none

/-- `DisputeRequest.validate_amount`: strip every character that is not a
digit or a dot; fail (`none`) unless the remainder parses as a number
greater than zero; on success return the cleaned string. -/
def validateAmount (s : String) : Option String :=
  let clean := stripAmount s
  match parseAmount? clean.data with
  | some amount => if 0 < amount then some clean else none
  | none => none

/-- A formalization of the claim's "intended numeric value":
`Decorated core s` holds when `s` is the numeral `core` with extra
formatting characters (currency symbols, commas, whitespace — anything
that is not a digit or a dot) inserted anywhere. -/
inductive Decorated : List Char → List Char → Prop where
  | nil : Decorated [] []
  | keep {c : Char} {core s : List Char} (hc : isAmountChar c = true)
      (h : Decorated core s) : Decorated (c :: core) (c :: s)
  | skip {c : Char} {core s : List Char} (hc : isAmountChar c = false)
      (h : Decorated core s) : Decorated core (c :: s)

/-! ## `src/app.py` — the industry and regulator tags of `VERIFIED_DB`  -/

/-- The distinct `"industry"` values of `VERIFIED_DB`, together with the
`"General Retail"` of the fallback profile used for unlisted companies. -/
def industryTags : List String :=
  ["E-Commerce", "Food Delivery", "Quick Commerce", "Fintech", "Banking",
   "Mobility", "Travel", "Telecom", "EdTech", "Airlines", "Electronics",
   "Home Services", "Cyber Crime", "General Retail"]

/-- The distinct `"regulator"` values of `VERIFIED_DB` (the fallback
profile's `"CCPA"` is among them). -/
def regulatorTags : List String :=
  ["CCPA", "RBI", "TRAI", "DGCA", "MHA", "MeitY"]

/-! ## `src/app.py` — `build_system_prompt` (section 5 of the file) -/

/-- The `"Fintech"` entry of `regulatory_context`. -/
def fintechRule : String :=
  "You MUST cite the 'Reserve Bank - Integrated Ombudsman Scheme (RB-IOS), 2021'. Invoke the 'RBI Digital Fraud Compensation Framework (Feb 2026)' and the landmark ruling 'Roopam Kumar v. SBI Cards' regarding the bank's duty of care. Explicitly demand an immediate 'Shadow Reversal' (provisional credit) within 10 working days as per the Feb 2026 Zero Liability guidelines. Cite the RBI Circular 'Harmonisation of Turnaround Time (TAT)' demanding the mandatory INR 100/day penalty for delays."

/-- The `"Banking"` entry of `regulatory_context`. -/
def bankingRule : String :=
  "You MUST cite the 'Reserve Bank - Integrated Ombudsman Scheme (RB-IOS), 2021' and Section 35A of the Banking Regulation Act, 1949. Invoke the 'RBI Digital Fraud Compensation Framework (Feb 2026)' and the 'Roopam Kumar v. SBI Cards' ruling. Forcefully demand an immediate 'Shadow Reversal' of the disputed funds within 10 days, citing the 3-day 'Golden Window' for zero customer liability. Threaten to report the branch and nodal officer to the CEPD of the RBI for Institutional Negligence."

/-- The `"E-Commerce"` entry of `regulatory_context`. -/
def ecommerceRule : String :=
  "You MUST cite 'Section 2(11) [Deficiency in Service]' and 'Section 2(47) [Unfair Trade Practice]' of the Consumer Protection Act, 2019. Explicitly cite 'Rule 4(4) and Rule 5 of the Consumer Protection (E-Commerce) Rules, 2020' regarding seller and platform liabilities. Threaten action under Section 88 & 89 of the CPA 2019 (punishment and fines) and escalation to the Central Consumer Protection Authority (CCPA) for class-action investigation."

/-- The `"Quick Commerce"` entry of `regulatory_context`. -/
def quickCommerceRule : String :=
  "You MUST cite 'Section 2(11) [Deficiency in Service]' of the Consumer Protection Act, 2019, and the 'Consumer Protection (E-Commerce) Rules, 2020'. Accuse them of 'Misleading Advertisements' under Section 2(28) regarding their guaranteed delivery timelines. Demand compensation for mental agony alongside the refund."

/-- The `"Food Delivery"` entry of `regulatory_context`. -/
def foodDeliveryRule : String :=
  "You MUST cite 'Section 2(11) [Deficiency in Service]' of the Consumer Protection Act, 2019. Cite 'Consumer Protection (E-Commerce) Rules, 2020' for platform accountability. Accuse them of imposing an 'Unfair Contract' under Section 2(46) if they use generic non-refund policies to deny the claim."

/-- The `"Telecom"` entry of `regulatory_context`. -/
def telecomRule : String :=
  "You MUST cite 'TRAI Telecom Consumers Complaint Redressal Regulations, 2012' and DoT guidelines. Accuse them of 'Deficiency in Service' under the Consumer Protection Act, 2019. Demand immediate resolution per the 30-day TRAI mandate."

/-- The `"Airlines"` entry of `regulatory_context`. -/
def airlinesRule : String :=
  "You MUST cite 'DGCA Civil Aviation Requirements (CAR) Section 3, Series M, Part IV' regarding facilities to be provided to passengers by airlines due to denied boarding, cancellation, and delays in flights. Accuse them of 'Deficiency in Service' under Section 2(11) of the Consumer Protection Act, 2019."

/-- The `"Travel"` entry of `regulatory_context`. -/
def travelRule : String :=
  "You MUST cite 'Section 2(11) [Deficiency in Service]' and 'Section 2(47) [Unfair Trade Practice]' of the Consumer Protection Act, 2019. Accuse them of imposing 'Unfair Contracts' (Section 2(46)) via hidden cancellation clauses and deceptive refund policies."

/-- The `"Mobility"` entry of `regulatory_context`. -/
def mobilityRule : String :=
  "You MUST cite 'Section 2(11) [Deficiency in Service]' of the Consumer Protection Act, 2019, and the Motor Vehicles Aggregator Guidelines, 2020. Accuse them of unfair trade practices for arbitrary cancellations, safety breaches, or price surging without adequate service delivery."

/-- The `"EdTech"` entry of `regulatory_context`. -/
def edtechRule : String :=
  "You MUST cite 'Section 2(47) [Unfair Trade Practice]' and 'Section 2(28) [Misleading Advertisement]' of the Consumer Protection Act, 2019. Cite the Ministry of Education 'Advisory to EdTech Companies'. Accuse them of predatory marketing."

/-- The `"Electronics"` entry of `regulatory_context`. -/
def electronicsRule : String :=
  "You MUST cite 'Section 2(34) [Product Liability]' and 'Section 2(11) [Deficiency in Service]' of the Consumer Protection Act, 2019. Demand immediate replacement or refund, threatening litigation at the District Consumer Commission for selling defective goods."

/-- The `"Cyber Crime"` entry of `regulatory_context`. -/
def cyberCrimeRule : String :=
  "You MUST cite 'Rule 3(1)(d) and Rule 4(4)(a) of the IT Amendment Rules, 2026'. Demand immediate takedown of the fraudulent content or fake profile within the STATUTORY 3-HOUR WINDOW. Threaten loss of 'Safe Harbour' protection under Section 79 of the IT Act for failure to comply by the 180-minute deadline."

/-- The default of `regulatory_context.get` for unlisted industries. -/
def defaultIndustryRule : String :=
  "Cite 'Section 2(11) [Deficiency in Service]' and 'Section 2(47) [Unfair Trade Practice]' of the Consumer Protection Act, 2019."

/-- `regulatory_context.get(industry, default)` of `build_system_prompt`. -/
def regulatoryContext (industry : String) : String :=
  match industry with
  | "Fintech" => fintechRule
  | "Banking" => bankingRule
  | "E-Commerce" => ecommerceRule
  | "Quick Commerce" => quickCommerceRule
  | "Food Delivery" => foodDeliveryRule
  | "Telecom" => telecomRule
  | "Airlines" => airlinesRule
  | "Travel" => travelRule
  | "Mobility" => mobilityRule
  | "EdTech" => edtechRule
  | "Electronics" => electronicsRule
  | "Cyber Crime" => cyberCrimeRule
  | _ => defaultIndustryRule

/-- The monetary-threshold clause (`rbi_hammer` text) of
`build_system_prompt`. -/
def rbiHammerText : String :=
  "MANDATORY RBI DIRECTIVE: Because the disputed amount is under INR 25,000, you MUST demand immediate 'No-Questions-Asked' compensation from the DEA Fund as per the Feb 2026 RBI Framework. "

/-- `rbi_hammer` of `build_system_prompt`: the clause is present exactly
when `regulator == "RBI" and 0 < amount <= 25000`. -/
def rbiHammer (regulator : String) (amount : ℚ) : String :=
  if regulator == "RBI" && decide (0 < amount) && decide (amount ≤ 25000)
  then rbiHammerText else ""

/-- The escalation track of `build_system_prompt` for `"RBI"`. -/
def rbiEscalation : String :=
  "Threaten direct legal escalation to the RBI Ombudsman via cms.rbi.org.in, filing a grievance on CPGRAMS (Ministry of Finance), and reporting to CIBIL for institutional negligence. DO NOT mention the CCPA."

/-- The escalation track of `build_system_prompt` for `"DGCA"`. -/
def dgcaEscalation : String :=
  "Threaten a formal complaint to the Directorate General of Civil Aviation (DGCA), Ministry of Civil Aviation via AirSewa, and the Consumer Court. DO NOT mention RBI."

/-- The escalation track of `build_system_prompt` for `"TRAI"`. -/
def traiEscalation : String :=
  "Threaten escalation to the Telecom Regulatory Authority of India (TRAI), the Department of Telecommunications (DoT) via PGPORTAL, and Consumer Court. DO NOT mention RBI."

/-- The default (consumer-court / CCPA) escalation track of
`build_system_prompt`. -/
def defaultEscalation : String :=
  "Threaten filing a formal lawsuit in the District Consumer Disputes Redressal Commission under Section 34 of the CPA 2019, and a systemic complaint to the Central Consumer Protection Authority (CCPA)."

/-- The `if/elif/elif/else` selecting `escalation_threat` in
`build_system_prompt`. -/
def escalationThreat (regulator : String) : String :=
  if regulator == "RBI" then rbiEscalation
  else if regulator == "DGCA" then dgcaEscalation
  else if regulator == "TRAI" then traiEscalation
  else defaultEscalation

/-- The four escalation-track texts, one per regulator track. -/
def escalationTexts : List String :=
  [rbiEscalation, dgcaEscalation, traiEscalation, defaultEscalation]

/-- The opening paragraph of the prompt returned by
`build_system_prompt`, up to and including `"INDUSTRY: "`. -/
def litigatorHeader : String :=
  "You are a Senior Corporate Litigator and Advocate of the Supreme Court of India. You are drafting a highly aggressive, legally ironclad Pre-Litigation Grievance Notice on behalf of your client (the consumer). Your goal is to strike fear into the Nodal Officer/Legal Team of the target company by proving that the legal, penal, and reputational costs of ignoring this notice will vastly exceed the refund amount.\n\nINDUSTRY: "

/-- The `STRICT RULES FOR DRAFTING` block ending the prompt of
`build_system_prompt`.  Its first rule line is a plain (non-f-string)
Python literal, so it contains the two characters `{regulator}` verbatim. -/
def strictRulesBlock : String :=
  "STRICT RULES FOR DRAFTING:\n1. REGULATORY ISOLATION: You MUST frame the entire argument strictly around \x7bregulator\x7d laws. Do NOT mention other regulators.\n2. LEGAL TONE: Use heavy legal jargon (e.g., 'breach of fiduciary duty', 'wilful negligence', 'statutory violation', 'deficiency in service under Section 2(11)'). Do not sound like an angry customer; sound like a ruthless lawyer.\n3. FORMAT: Use a strict legal notice structure with ALL-CAPS headers (e.g., STATEMENT OF FACTS, STATUTORY VIOLATIONS, PRAYER FOR RELIEF).\n4. PLAIN TEXT ONLY: Do NOT use markdown, asterisks (**), or bolding. Just use plain text.\n5. KEEP IT CONCISE: Do not exceed 300 words.\n6. NO SIGNATURE: Stop generating text immediately after the 'PRAYER FOR RELIEF' section. DO NOT write 'Sincerely', 'Regards', or add a signature. The system will append it."

/-- The `1. REGULATORY ISOLATION` drafting rule as it stands in the
returned prompt: a plain string still holding the literal placeholder
`{regulator}`. -/
def isolationRuleLine : String :=
  "1. REGULATORY ISOLATION: You MUST frame the entire argument strictly around \x7bregulator\x7d laws. Do NOT mention other regulators.\n"

/-- `build_system_prompt(industry, regulator, amount)` of `app.py`. -/
def buildSystemPrompt (industry regulator : String) (amount : ℚ) : String :=
  litigatorHeader ++ industry ++ " | PRIMARY REGULATOR: " ++ regulator ++
  "\n\nEXACT LEGAL SECTIONS TO CITE (MANDATORY):\n" ++ regulatoryContext industry ++
  "\n\n" ++ rbiHammer regulator amount ++ "\nESCALATION THREAT TO USE:\n" ++
  escalationThreat regulator ++ "\n\n" ++ strictRulesBlock

/-! ## `src/app.py` — `generate_legal_draft` (draft assembly, retry) -/

/-- The step `raw_draft.split("Sincerely")[0].strip()` applied when
`"Sincerely" in raw_draft`. -/
def stripSincerely (t : String) : String :=
  if strOccurs t "Sincerely" then pyStrip (beforeFirst t "Sincerely") else t

/-- The step `raw_draft.split("Regards")[0].strip()` applied when
`"Regards" in raw_draft`. -/
def stripRegards (t : String) : String :=
  if strOccurs t "Regards" then pyStrip (beforeFirst t "Regards") else t

/-- The two conditional sign-off-stripping steps of
`generate_legal_draft`, in source order. -/
def stripSignOff (t : String) : String := stripRegards (stripSincerely t)

/-- The constant, model-independent prefix of `signature_block`, through
`"Sincerely,\n"`. -/
def signaturePrefix : String :=
  "\n\nPlease find attached the relevant transaction proofs, screenshots, and evidence supporting this claim.\n\nSincerely,\n"

/-- `signature_block` of `generate_legal_draft`: deterministic, built
from the validated user fields. -/
def signatureBlock (userName userPhone userEmail : String) : String :=
  signaturePrefix ++ userName ++ "\nPhone: " ++ userPhone ++ "\nEmail: " ++ userEmail

/-- `draft_body = raw_draft + signature_block`, where `raw_draft` is the
model output `.strip()`-ed and then passed through the sign-off
stripping. -/
def draftBody (raw userName userPhone userEmail : String) : String :=
  stripSignOff (pyStrip raw) ++ signatureBlock userName userPhone userEmail

/-- `company_name.split("(")[0].strip()` of `generate_legal_draft`. -/
def companyShort (companyName : String) : String :=
  pyStrip (beforeFirst companyName "(")

/-- The subject line template of `generate_legal_draft`. -/
def subjectLine (companyName orderId disputedAmount : String) : String :=
  "URGENT PRE-LITIGATION NOTICE | " ++ companyShort companyName ++ " | Ref: " ++
  orderId ++ " | ₹" ++ disputedAmount

/-- A validated `DisputeRequest` payload as `generate_legal_draft`
receives it. -/
structure DisputePayload where
  userName : String
  userEmail : String
  userPhone : String
  companyName : String
  orderId : String
  disputedAmount : String
  complaintDetails : String

/-- One outcome of a Generation Service call: a completion, a rate-limit
failure, or any other failure. -/
inductive GenOutcome where
  | ok (text : String)
  | rateLimited
  | failure
  deriving DecidableEq

/-- The response of `generate_legal_draft` on success. -/
structure DraftResponse where
  targetEmail : String
  subject : String
  draft : String
  deriving DecidableEq

/-- The detail string of the `HTTPException(status_code=502, ...)` raised
by `generate_legal_draft` on any Generation Service failure. -/
def serviceBusyDetail : String := "Strike engine unavailable. Please retry in a moment."

/-- The Generation Service interaction of `generate_legal_draft`: `svc n`
is the outcome the service would give to the `n`-th call of this request.
The code issues exactly one call (`svc 0`) inside one `try`: any failure
is mapped to the 502 error; no retry and no backoff exist in the source. -/
def generateLegalDraft (svc : ℕ → GenOutcome) (p : DisputePayload)
    (targetEmail : String) : Except (ℕ × String) DraftResponse :=
  match svc 0 with
  | GenOutcome.ok text =>
      Except.ok
        { targetEmail := targetEmail
          subject := subjectLine p.companyName p.orderId p.disputedAmount
          draft := draftBody text p.userName p.userPhone p.userEmail }
  | GenOutcome.rateLimited => Except.error (502, serviceBusyDetail)
  | GenOutcome.failure => Except.error (502, serviceBusyDetail)

/-! ## `src/app.py` — `triage_copilot` (the triage turn) -/

/-- The ready sentinel of the triage system prompt and of
`triage_copilot`'s reply scan. -/
def readySentinel : String := "[READY_FOR_DRAFT]"

/-- The fixed reply `triage_copilot` returns alongside an extraction. -/
def triageCompleteReply : String := "All details secured. Compiling your legal notice now..."

/-- The detail of `HTTPException(status_code=500, ...)` in
`triage_copilot`'s catch-all handler. -/
def triageErrorDetail : String := "Intake Copilot offline."

/-- What a triage turn returns for a given Generation Service reply. -/
inductive TriageOutcome where
  | complete (reply extractedData : String)
  | asking (reply : String)
  | httpError (status : ℕ) (detail : String)
  deriving DecidableEq

/-- The reply handling of `triage_copilot`: when the sentinel occurs
anywhere in the reply, the payload is `bot_reply.split("|")[1].strip()`;
the `IndexError` of a reply with no `"|"` is swallowed by the catch-all
`except`, which raises the 500 error. -/
def triageReplyHandler (botReply : String) : TriageOutcome :=
  if strOccurs botReply readySentinel then
    match (pySplitChar '|' botReply.data).get? 1 with
    | some seg => TriageOutcome.complete triageCompleteReply (pyStrip (String.mk seg))
    | none => TriageOutcome.httpError 500 triageErrorDetail
  else TriageOutcome.asking botReply

/-- Modelled from the spec: the payload as the spec describes it — the
server "parses everything after it [the sentinel] as the extraction
payload".  Used only to compare the code's behaviour with the spec's
words. -/
def specPayloadAfterSentinel (botReply : String) : String :=
  pyStrip (String.mk (afterFirstL readySentinel.data botReply.data))

/-! ## `src/app.py` — `karma_chat` (retrieval-augmented chat) -/

/-- One legal-document match as the vector search returns it. -/
structure LegalMatch where
  actName : String
  content : String

/-- The embedding call's outcome: a 200 response carrying a vector, a
non-200 status (the vector stays the zero vector), or a raised transport
exception (the service is unreachable). -/
inductive EmbedOutcome where
  | ok (v : List ℚ)
  | badStatus
  | unreachable

/-- The oracles of one `karma_chat` request: the query-expansion LLM call
(`none` models a raised exception), the embedding call, and the vector
search (`none` models a raised exception, which the inner `try` absorbs). -/
structure ChatEnv where
  expansionOutcome : Option String
  embedOutcome : EmbedOutcome
  searchOutcome : Option (List LegalMatch)

/-- The fixed reply of `karma_chat`'s catch-all `except` handler. -/
def recalibratingReply : String :=
  "⚠️ The Strategist is recalibrating. Please try again in 10 seconds."

/-- The `legal_context` accumulation of `karma_chat`. -/
def legalContextOf (ms : List LegalMatch) : String :=
  ms.foldl (fun acc m => acc ++ "- ACT: " ++ m.actName ++ "\n  CLAUSE: " ++ m.content ++ "\n\n") ""

/-- Modelled from the spec: `run_legal_war_room` is imported by `app.py`
from `war_room.py`, but `war_room.py` of this repository defines only
`create_war_room` — the imported function's body is not in the sources.
Per the spec (§4.4, §8), the conversational drafting path produces a
reply from the user message and the retrieved legal context, and "if no
matches, the context block is empty and downstream prompts fall back to a
generic citation" — generic Consumer Protection Act framing. -/
def runLegalWarRoom (userMessage legalContext : String) : String :=
  if legalContext == "" then
    "Under the Consumer Protection Act 2019, regarding: " ++ userMessage
  else
    "Citing the retrieved sector laws:\n" ++ legalContext ++ "Regarding: " ++ userMessage

/-- The text path of `karma_chat` (no image attached), as a function of
the request's oracles.  All failure handling mirrors the source: an
expansion-call or embedding-call exception falls to the catch-all handler
(the fixed recalibrating reply); a non-200 embedding response leaves the
zero query vector, which skips the search; a search exception leaves
`legal_context` empty; the reply is produced by `run_legal_war_room`. -/
def karmaChatText (env : ChatEnv) (userMessage : String) : String :=
  match env.expansionOutcome with
  | none => recalibratingReply
  | some _ =>
    match env.embedOutcome with
    | EmbedOutcome.unreachable => recalibratingReply
    | EmbedOutcome.badStatus => runLegalWarRoom userMessage ""
    | EmbedOutcome.ok v =>
      if v.any (fun x => decide (x ≠ 0)) then
        match env.searchOutcome with
        | none => runLegalWarRoom userMessage ""
        | some ms => runLegalWarRoom userMessage (legalContextOf ms)
      else runLegalWarRoom userMessage ""

/-! ## Concrete inputs for counterexamples and witnesses -/

/-- A 1001-character complaint narrative (999 `'x'`s and two spaces),
longer than the 1000-character cap and free of injection markers. -/
def narrativeWithTrailingBlanks : String :=
  String.mk (List.replicate 999 'x' ++ [' ', ' '])

/-- A 1001-character complaint narrative of 1001 `'x'`s. -/
def narrativeAllX : String := String.mk (List.replicate 1001 'x')

/-- A narrative whose only injection marker (`"system:"`) starts after
the 1000-character truncation point. -/
def narrativeLateMarker : String :=
  String.mk (List.replicate 1000 'a' ++ "system:".data)

/-- A Generation Service reply for the triage turn: the sentinel occurs,
and the reply's first `"|"` stands before the sentinel. -/
def triageReplyPipes : String := "Pick A|B first. [READY_FOR_DRAFT] | order: 7"

/-- A Generation Service oracle whose first call is rate limited and
whose every later call would succeed. -/
def rateLimitedThenOk : ℕ → GenOutcome :=
  fun n => if n = 0 then GenOutcome.rateLimited else GenOutcome.ok "NOTICE BODY"

/-- A sample validated payload. -/
def samplePayload : DisputePayload :=
  { userName := "Asha Rao"
    userEmail := "asha@example.com"
    userPhone := "9999999999"
    companyName := "Swiggy (Bundl Technologies Pvt Ltd)"
    orderId := "SW123"
    disputedAmount := "450"
    complaintDetails := "Food not delivered" }

/-! ## Decomposition views of the constant strings -/

/-- `signaturePrefix` split before its `"Sincerely"`: the part that is
free of sign-off markers. -/
def sincerelyFreePre : String :=
  "\n\nPlease find attached the relevant transaction proofs, screenshots, and evidence supporting this claim.\n\n"

/-- `strictRulesBlock` up to the isolation rule line. -/
def strictRulesPre : String := "STRICT RULES FOR DRAFTING:\n"

/-- `strictRulesBlock` after the isolation rule line. -/
def strictRulesTail : String :=
  "2. LEGAL TONE: Use heavy legal jargon (e.g., 'breach of fiduciary duty', 'wilful negligence', 'statutory violation', 'deficiency in service under Section 2(11)'). Do not sound like an angry customer; sound like a ruthless lawyer.\n3. FORMAT: Use a strict legal notice structure with ALL-CAPS headers (e.g., STATEMENT OF FACTS, STATUTORY VIOLATIONS, PRAYER FOR RELIEF).\n4. PLAIN TEXT ONLY: Do NOT use markdown, asterisks (**), or bolding. Just use plain text.\n5. KEEP IT CONCISE: Do not exceed 300 words.\n6. NO SIGNATURE: Stop generating text immediately after the 'PRAYER FOR RELIEF' section. DO NOT write 'Sincerely', 'Regards', or add a signature. The system will append it."

/-! ## Decidable check bundles for the prompt-isolation claims

Each bundle is a closed boolean computation over the constant strings of
`build_system_prompt`; the claims' theorems extract from them, through
the substring decomposition lemmas below, the facts they need about every
industry tag, regulator tag and amount. -/

/-- The isolation rule line as it would read had the `regulator` name
been substituted for the placeholder (it never is — the line is a plain
string in the source). -/
def isolationLineFor (reg : String) : String :=
  "1. REGULATORY ISOLATION: You MUST frame the entire argument strictly around " ++
    reg ++ " laws. Do NOT mention other regulators.\n"

/-- The patterns whose containment in built prompts the claims discuss:
the four escalation-track texts, the monetary-threshold clause, and the
regulator-substituted variants of the isolation rule line. -/
def promptPatterns : List String :=
  escalationTexts ++ [rbiHammerText] ++ regulatorTags.map isolationLineFor

/-- Per pattern: the pattern is nonempty, does not occur in any constant
piece of the prompt, no proper prefix of it ends a constant piece that is
followed by variable text, and no proper suffix of it can begin at the
separator following the industry or regulator interpolation. -/
def patternPieceCheck (p : String) : Bool :=
  !(p.data.isEmpty) &&
  !(occursL p.data litigatorHeader.data) && noPreSuffix litigatorHeader.data p.data &&
  !(occursL p.data " | PRIMARY REGULATOR: ".data) &&
    noPreSuffix " | PRIMARY REGULATOR: ".data p.data &&
    boundedCross 14 " | PRIMARY REGULATOR: ".data p.data &&
  !(occursL p.data "\n\nEXACT LEGAL SECTIONS TO CITE (MANDATORY):\n".data) &&
    noPreSuffix "\n\nEXACT LEGAL SECTIONS TO CITE (MANDATORY):\n".data p.data &&
    boundedCross 14 "\n\nEXACT LEGAL SECTIONS TO CITE (MANDATORY):\n".data p.data &&
  !(occursL p.data "\n\n".data) && noPreSuffix "\n\n".data p.data &&
  !(occursL p.data "\nESCALATION THREAT TO USE:\n".data) &&
    noPreSuffix "\nESCALATION THREAT TO USE:\n".data p.data &&
  !(occursL p.data strictRulesBlock.data)

/-- `patternPieceCheck` over every pattern of interest. -/
def allPatternPieceChecks : Bool := promptPatterns.all patternPieceCheck

/-- No pattern of interest occurs in any industry tag. -/
def industryScanCheck : Bool :=
  promptPatterns.all fun p => industryTags.all fun i =>
    !(occursL p.data i.data) && decide (i.data.length ≤ 14)

/-- No pattern of interest occurs in any regulator tag. -/
def regulatorScanCheck : Bool :=
  promptPatterns.all fun p => regulatorTags.all fun r =>
    !(occursL p.data r.data) && decide (r.data.length ≤ 14)

/-- Per pattern and industry tag: the pattern does not occur in the
industry's mandatory-citation block, and no proper prefix of the pattern
is a suffix of that block. -/
def ruleScanCheck : Bool :=
  promptPatterns.all fun p => industryTags.all fun i =>
    !(occursL p.data (regulatoryContext i).data) &&
    noPreSuffix (regulatoryContext i).data p.data

/-- Per escalation text: it does not occur in the monetary-threshold
clause, and no proper prefix of it is a suffix of that clause. -/
def escHammerCheck : Bool :=
  escalationTexts.all fun e =>
    !(occursL e.data rbiHammerText.data) && noPreSuffix rbiHammerText.data e.data

/-- Per regulator tag and escalation text: either the text is the track
selected for that regulator, or it does not occur in the selected track
and no proper prefix of it is a suffix of the selected track. -/
def foreignEscCheck : Bool :=
  regulatorTags.all fun r => escalationTexts.all fun e =>
    (e == escalationThreat r) ||
    (!(occursL e.data (escalationThreat r).data) &&
      noPreSuffix (escalationThreat r).data e.data)

/-- Per regulator tag: the monetary-threshold clause does not occur in
the selected escalation track, and no proper prefix of the clause is a
suffix of that track. -/
def hammerEscCheck : Bool :=
  regulatorTags.all fun r =>
    !(occursL rbiHammerText.data (escalationThreat r).data) &&
    noPreSuffix (escalationThreat r).data rbiHammerText.data

/-- Per regulator tag: the substituted isolation line does not occur in
the monetary-threshold clause, and no proper prefix of the line is a
suffix of the clause. -/
def isoHammerCheck : Bool :=
  regulatorTags.all fun r =>
    !(occursL (isolationLineFor r).data rbiHammerText.data) &&
    noPreSuffix rbiHammerText.data (isolationLineFor r).data

/-- Per pair of regulator tags: the substituted isolation line does not
occur in any selected escalation track, and no proper prefix of the line
is a suffix of any track. -/
def isoEscCheck : Bool :=
  regulatorTags.all fun r => regulatorTags.all fun r2 =>
    !(occursL (isolationLineFor r2).data (escalationThreat r).data) &&
    noPreSuffix (escalationThreat r).data (isolationLineFor r2).data

/-- For every shift `0 < k` below `sincerelyFreePre.length + 9`, two
positions of `signaturePrefix` at distance `k` hold distinct characters —
`signaturePrefix` has no short self-overlap, so no occurrence of the
signature block can straddle into the one appended at the end of a
draft. -/
def sigOverlapCheck : Bool :=
  (List.range (sincerelyFreePre.data.length + 9)).all fun k =>
    k == 0 ||
      (List.range signaturePrefix.data.length).any fun j =>
        decide (k + j < signaturePrefix.data.length) &&
        !(signaturePrefix.data[j]? == signaturePrefix.data[k + j]?)

/-- The chat oracles of a request whose embedding call raises (the
service is unreachable) while everything else would succeed. -/
def envEmbedUnreachable : ChatEnv :=
  { expansionOutcome := some "RBI TAT framework UPI refund"
    embedOutcome := EmbedOutcome.unreachable
    searchOutcome := some [] }

/-- The chat oracles of a request whose embedding call completes with a
non-success status. -/
def envEmbedBadStatus : ChatEnv :=
  { expansionOutcome := some "RBI TAT framework UPI refund"
    embedOutcome := EmbedOutcome.badStatus
    searchOutcome := some [] }

/-! ## Substring lemmas -/

theorem hasPre_iff {s p : List Char} : hasPre s p = true ↔ ∃ r, s = p ++ r := by
  induction p generalizing s with
  | nil => simp [hasPre]
  | cons d p ih =>
    cases s with
    | nil => simp [hasPre]
    | cons c s =>
      simp only [hasPre, Bool.and_eq_true, beq_iff_eq, List.cons_append]
      constructor
      · rintro ⟨rfl, h⟩
        obtain ⟨r, rfl⟩ := ih.mp h
        exact ⟨r, rfl⟩
      · rintro ⟨r, hr⟩
        injection hr with h1 h2
        exact ⟨h1, ih.mpr ⟨r, h2⟩⟩

theorem hasPre_refl (l : List Char) : hasPre l l = true :=
  hasPre_iff.mpr ⟨[], by simp⟩

theorem hasPre_length {s p : List Char} (h : hasPre s p = true) : p.length ≤ s.length := by
  obtain ⟨r, rfl⟩ := hasPre_iff.mp h
  simp

theorem hasPre_append_left {p a b : List Char} (h : p.length ≤ a.length) :
    hasPre (a ++ b) p = hasPre a p := by
  induction p generalizing a with
  | nil => simp [hasPre]
  | cons d p ih =>
    cases a with
    | nil => simp at h
    | cons c a =>
      show (c == d && hasPre (a ++ b) p) = (c == d && hasPre a p)
      rw [ih (by simpa using h)]

theorem hasPre_getElem? {s p : List Char} (h : hasPre s p = true) :
    ∀ j, j < p.length → p[j]? = s[j]? := by
  obtain ⟨r, rfl⟩ := hasPre_iff.mp h
  intro j hj
  exact (List.getElem?_append_left hj).symm

theorem occursL_iff {p s : List Char} : occursL p s = true ↔ ∃ x y, s = x ++ p ++ y := by
  induction s with
  | nil =>
    simp only [occursL]
    constructor
    · intro h
      cases p with
      | nil => exact ⟨[], [], rfl⟩
      | cons a q => simp [List.isEmpty] at h
    · rintro ⟨x, y, hxy⟩
      have hlen := congrArg List.length hxy
      cases p with
      | nil => rfl
      | cons a q => simp at hlen; omega
  | cons c t ih =>
    simp only [occursL, Bool.or_eq_true]
    constructor
    · rintro (h | h)
      · obtain ⟨r, hr⟩ := hasPre_iff.mp h
        exact ⟨[], r, by simpa using hr⟩
      · obtain ⟨x, y, rfl⟩ := ih.mp h
        exact ⟨c :: x, y, rfl⟩
    · rintro ⟨x, y, hxy⟩
      cases x with
      | nil => exact Or.inl (hasPre_iff.mpr ⟨y, by simpa using hxy⟩)
      | cons a x =>
        injection hxy with h1 h2
        exact Or.inr (ih.mpr ⟨x, y, h2⟩)

theorem occursL_of_hasPre {p s : List Char} (h : hasPre s p = true) : occursL p s = true := by
  obtain ⟨r, rfl⟩ := hasPre_iff.mp h
  exact occursL_iff.mpr ⟨[], r, rfl⟩

theorem occursL_append_right {p a b : List Char} (h : occursL p b = true) :
    occursL p (a ++ b) = true := by
  obtain ⟨x, y, rfl⟩ := occursL_iff.mp h
  exact occursL_iff.mpr ⟨a ++ x, y, by simp⟩

theorem occursL_trans {p m s : List Char} (h1 : occursL p m = true)
    (h2 : occursL m s = true) : occursL p s = true := by
  obtain ⟨x, y, rfl⟩ := occursL_iff.mp h1
  obtain ⟨u, v, rfl⟩ := occursL_iff.mp h2
  exact occursL_iff.mpr ⟨u ++ x, y ++ v, by simp⟩

theorem occursL_length {p s : List Char} (h : occursL p s = true) : p.length ≤ s.length := by
  obtain ⟨x, y, rfl⟩ := occursL_iff.mp h
  simp
  omega

theorem not_occursL_mono {p m s : List Char} (hm : occursL m s = true)
    (h : occursL p s = false) : occursL p m = false := by
  by_contra hne
  have hpm : occursL p m = true := by revert hne; cases occursL p m <;> simp
  rw [occursL_trans hpm hm] at h
  cases h

theorem occursL_append_iff {p a b : List Char} :
    occursL p (a ++ b) = true ↔
      occursL p a = true ∨ occursL p b = true ∨
        ∃ k, 0 < k ∧ k < p.length ∧ (∃ x, a = x ++ p.take k) ∧
          hasPre b (p.drop k) = true := by
  constructor
  · intro h
    obtain ⟨x, y, hxy⟩ := occursL_iff.mp h
    rcases le_or_lt (x.length + p.length) a.length with hin | hout
    · have ha := congrArg (List.take a.length) hxy
      rw [List.take_left, List.take_append_eq_append_take,
        List.take_of_length_le (by simp only [List.length_append]; omega :
          (x ++ p).length ≤ a.length)] at ha
      exact Or.inl (occursL_iff.mpr ⟨x, y.take (a.length - (x ++ p).length), ha⟩)
    · rcases le_or_lt a.length x.length with hab | hstr
      · have hb := congrArg (List.drop a.length) hxy
        rw [List.drop_left, List.drop_append_eq_append_drop, List.drop_append_eq_append_drop,
          Nat.sub_eq_zero_of_le hab, List.drop_zero,
          Nat.sub_eq_zero_of_le (by simp only [List.length_append]; omega :
            a.length ≤ (x ++ p).length), List.drop_zero] at hb
        exact Or.inr (Or.inl (occursL_iff.mpr ⟨x.drop a.length, y, hb⟩))
      · refine Or.inr (Or.inr ⟨a.length - x.length, by omega, by omega, ⟨x, ?_⟩, ?_⟩)
        · have ha := congrArg (List.take a.length) hxy
          rw [List.take_left, List.take_append_eq_append_take,
            List.take_append_eq_append_take, List.take_of_length_le hstr.le,
            Nat.sub_eq_zero_of_le (by simp only [List.length_append]; omega :
              a.length ≤ (x ++ p).length), List.take_zero, List.append_nil] at ha
          exact ha
        · have hb := congrArg (List.drop a.length) hxy
          rw [List.drop_left, List.drop_append_eq_append_drop, List.drop_append_eq_append_drop,
            List.drop_eq_nil_of_le hstr.le,
            Nat.sub_eq_zero_of_le (by simp only [List.length_append]; omega :
              a.length ≤ (x ++ p).length), List.drop_zero, List.nil_append] at hb
          exact hasPre_iff.mpr ⟨y, hb⟩
  · rintro (h | h | ⟨k, hk0, hkp, ⟨x, rfl⟩, hb⟩)
    · obtain ⟨u, v, rfl⟩ := occursL_iff.mp h
      exact occursL_iff.mpr ⟨u, v ++ b, by simp⟩
    · exact occursL_append_right h
    · obtain ⟨r, hr⟩ := hasPre_iff.mp hb
      refine occursL_iff.mpr ⟨x, r, ?_⟩
      rw [hr, List.append_assoc, ← List.append_assoc (List.take k p), List.take_append_drop,
        List.append_assoc]

theorem noPreSuffixAux_spec {arev revPre rest : List Char}
    (h : noPreSuffixAux arev revPre rest = true) :
    ∀ m, 1 ≤ m → m < rest.length →
      hasPre arev ((rest.take m).reverse ++ revPre) = false := by
  induction rest generalizing revPre with
  | nil => intro m h1 h2; exact absurd h2 (by simp)
  | cons c rest ih =>
    intro m h1 h2
    cases rest with
    | nil => simp at h2; omega
    | cons d rest2 =>
      simp only [noPreSuffixAux, Bool.and_eq_true, Bool.not_eq_true'] at h
      rcases Nat.eq_or_lt_of_le h1 with rfl | hm2
      · simpa using h.1
      · have hrec := ih h.2 (m - 1) (by omega) (by simp at h2 ⊢; omega)
        have hshape : (List.take m (c :: d :: rest2)).reverse ++ revPre =
            (List.take (m - 1) (d :: rest2)).reverse ++ (c :: revPre) := by
          cases m with
          | zero => omega
          | succ m' =>
            simp only [List.take_succ_cons, List.reverse_cons, Nat.add_sub_cancel,
              List.append_assoc, List.singleton_append]
        rw [hshape]
        exact hrec

theorem noPreSuffix_spec {a p : List Char} (h : noPreSuffix a p = true) :
    ∀ k, 0 < k → k < p.length → ∀ x, a ≠ x ++ p.take k := by
  intro k hk0 hkp x hax
  have hrev : hasPre a.reverse ((p.take k).reverse ++ []) = false :=
    noPreSuffixAux_spec h k hk0 hkp
  rw [List.append_nil] at hrev
  have : hasPre a.reverse (p.take k).reverse = true := by
    refine hasPre_iff.mpr ⟨x.reverse, ?_⟩
    rw [hax, List.reverse_append]
  rw [this] at hrev
  cases hrev

theorem noPreSuffixAux_nil_arev (revPre p : List Char) :
    noPreSuffixAux [] revPre p = true := by
  induction p generalizing revPre with
  | nil => rfl
  | cons c rest ih =>
    cases rest with
    | nil => rfl
    | cons d rest2 =>
      simp only [noPreSuffixAux, Bool.and_eq_true, Bool.not_eq_true']
      exact ⟨rfl, ih _⟩

theorem noPreSuffix_nil (p : List Char) : noPreSuffix [] p = true :=
  noPreSuffixAux_nil_arev [] p

theorem bool_eq_false {b : Bool} (h : ¬ b = true) : b = false := by
  cases b
  · rfl
  · exact absurd rfl h

theorem bool_ne_false_eq_true {b : Bool} (h : ¬ b = false) : b = true := by
  cases b
  · exact absurd rfl h
  · rfl

theorem hasPre_append_false_of_cross {m z t : List Char}
    (h1 : hasPre m t = false) (h2 : hasPre t m = false) :
    hasPre (m ++ z) t = false := by
  by_contra hne
  have hc : hasPre (m ++ z) t = true := bool_ne_false_eq_true hne
  rcases le_or_lt t.length m.length with hle | hgt
  · rw [hasPre_append_left hle] at hc
    rw [hc] at h1
    cases h1
  · obtain ⟨r, hr⟩ := hasPre_iff.mp hc
    have hmt : hasPre t m = true := by
      refine hasPre_iff.mpr ⟨t.drop m.length, ?_⟩
      have hq := congrArg (List.take m.length) hr
      rw [List.take_left, List.take_append_eq_append_take,
        Nat.sub_eq_zero_of_le hgt.le, List.take_zero, List.append_nil] at hq
      conv_lhs => rw [← List.take_append_drop m.length t]
      rw [← hq]
    rw [hmt] at h2
    cases h2

theorem boundedCross_spec {n : ℕ} {m p : List Char} (h : boundedCross n m p = true) :
    ∀ k, 0 < k → k ≤ n → k < p.length → ∀ z, hasPre (m ++ z) (p.drop k) = false := by
  intro k hk0 hkn hkp z
  rw [boundedCross, List.all_eq_true] at h
  have hc := h k (List.mem_range.mpr (by omega))
  rw [Bool.or_eq_true, Bool.or_eq_true] at hc
  rcases hc with (hk | hlen) | hcross
  · rw [beq_iff_eq] at hk
    omega
  · rw [decide_eq_true_eq] at hlen
    omega
  · rw [Bool.and_eq_true, Bool.not_eq_true', Bool.not_eq_true'] at hcross
    exact hasPre_append_false_of_cross hcross.1 hcross.2

theorem occursL_append_false_left {p a b : List Char}
    (h1 : occursL p a = false) (h2 : noPreSuffix a p = true)
    (h3 : occursL p b = false) : occursL p (a ++ b) = false := by
  by_contra hne
  have h : occursL p (a ++ b) = true := by
    revert hne; cases occursL p (a ++ b) <;> simp
  rcases occursL_append_iff.mp h with hA | hB | ⟨k, hk0, hkp, ⟨x, hx⟩, hPre⟩
  · rw [hA] at h1; cases h1
  · rw [hB] at h3; cases h3
  · exact noPreSuffix_spec h2 k hk0 hkp x hx

theorem occursL_append_false_right_bounded {p a m z : List Char} {n : ℕ}
    (h1 : occursL p a = false) (hlen : a.length ≤ n)
    (h2 : boundedCross n m p = true) (h3 : occursL p (m ++ z) = false) :
    occursL p (a ++ (m ++ z)) = false := by
  by_contra hne
  have h : occursL p (a ++ (m ++ z)) = true := bool_ne_false_eq_true hne
  rcases occursL_append_iff.mp h with hA | hB | ⟨k, hk0, hkp, ⟨x, hx⟩, hPre⟩
  · rw [hA] at h1
    cases h1
  · rw [hB] at h3
    cases h3
  · have hklen : k ≤ a.length := by
      have hl := congrArg List.length hx
      rw [List.length_append, List.length_take, min_eq_left (le_of_lt hkp)] at hl
      omega
    rw [boundedCross_spec h2 k hk0 (by omega) hkp z] at hPre
    cases hPre

/-! ## Structure of `pyStrip` and `beforeFirst` results -/

theorem dropWhile_suffix (q : Char → Bool) (l : List Char) :
    ∃ x, l = x ++ l.dropWhile q := by
  induction l with
  | nil => exact ⟨[], rfl⟩
  | cons c t ih =>
    by_cases hq : q c = true
    · obtain ⟨x, hx⟩ := ih
      refine ⟨c :: x, ?_⟩
      have hd : List.dropWhile q (c :: t) = List.dropWhile q t := by
        simp [List.dropWhile, hq]
      rw [hd, List.cons_append]
      exact congrArg (c :: ·) hx
    · refine ⟨[], ?_⟩
      have hd : List.dropWhile q (c :: t) = c :: t := by
        simp [List.dropWhile, bool_eq_false hq]
      rw [hd, List.nil_append]

theorem pyStripL_within (l : List Char) : ∃ x y, l = x ++ pyStripL l ++ y := by
  obtain ⟨x, hx⟩ := dropWhile_suffix pyWsChar l
  obtain ⟨x2, hx2⟩ := dropWhile_suffix pyWsChar (l.dropWhile pyWsChar).reverse
  refine ⟨x, x2.reverse, ?_⟩
  have hmid : l.dropWhile pyWsChar = pyStripL l ++ x2.reverse := by
    have h := congrArg List.reverse hx2
    simp only [List.reverse_reverse, List.reverse_append] at h
    exact h
  calc l = x ++ l.dropWhile pyWsChar := hx
    _ = x ++ (pyStripL l ++ x2.reverse) := by rw [← hmid]
    _ = x ++ pyStripL l ++ x2.reverse := (List.append_assoc x _ _).symm

theorem occursL_pyStripL_self (l : List Char) : occursL (pyStripL l) l = true := by
  obtain ⟨x, y, h⟩ := pyStripL_within l
  exact occursL_iff.mpr ⟨x, y, h⟩

theorem not_occursL_pyStripL {p l : List Char} (h : occursL p l = false) :
    occursL p (pyStripL l) = false :=
  not_occursL_mono (occursL_pyStripL_self l) h

theorem beforeFirstL_cons (p : List Char) (c : Char) (t : List Char) :
    beforeFirstL p (c :: t) =
      if hasPre (c :: t) p = true then [] else c :: beforeFirstL p t := rfl

theorem beforeFirstL_prefix (p l : List Char) : ∃ y, l = beforeFirstL p l ++ y := by
  induction l with
  | nil => exact ⟨[], rfl⟩
  | cons c t ih =>
    by_cases hc : hasPre (c :: t) p = true
    · exact ⟨c :: t, by rw [beforeFirstL_cons, if_pos hc, List.nil_append]⟩
    · obtain ⟨y, hy⟩ := ih
      refine ⟨y, ?_⟩
      rw [beforeFirstL_cons, if_neg hc, List.cons_append]
      exact congrArg (c :: ·) hy

theorem occursL_beforeFirstL {p : List Char} (hp : p ≠ []) (l : List Char) :
    occursL p (beforeFirstL p l) = false := by
  induction l with
  | nil =>
    cases p with
    | nil => exact absurd rfl hp
    | cons d q => rfl
  | cons c t ih =>
    by_cases hc : hasPre (c :: t) p = true
    · rw [beforeFirstL_cons, if_pos hc]
      cases p with
      | nil => exact absurd rfl hp
      | cons d q => rfl
    · rw [beforeFirstL_cons, if_neg hc]
      show (hasPre (c :: beforeFirstL p t) p || occursL p (beforeFirstL p t)) = false
      rw [ih, Bool.or_false]
      by_contra hne
      have hpre : hasPre (c :: beforeFirstL p t) p = true := bool_ne_false_eq_true hne
      obtain ⟨r, hr⟩ := hasPre_iff.mp hpre
      obtain ⟨y, hy⟩ := beforeFirstL_prefix p t
      have hct : hasPre (c :: t) p = true := by
        refine hasPre_iff.mpr ⟨r ++ y, ?_⟩
        have h1 : c :: t = (c :: beforeFirstL p t) ++ y := by
          rw [List.cons_append]
          exact congrArg (c :: ·) hy
        rw [h1, hr, List.append_assoc]
      exact hc hct

theorem beforeFirstL_eq_of_not_occurs {p l : List Char} (h : occursL p l = false) :
    beforeFirstL p l = l := by
  induction l with
  | nil => rfl
  | cons c t ih =>
    have h2 : (hasPre (c :: t) p || occursL p t) = false := h
    rcases Bool.or_eq_false_iff.mp h2 with ⟨h3, h4⟩
    rw [beforeFirstL_cons, if_neg (by rw [h3]; exact Bool.false_ne_true)]
    exact congrArg (c :: ·) (ih h4)

/-! ## Properties of the sign-off stripping of `generate_legal_draft` -/

theorem stripSincerely_eq_pos {t : String} (h : strOccurs t "Sincerely" = true) :
    stripSincerely t = pyStrip (beforeFirst t "Sincerely") := by
  rw [stripSincerely, if_pos h]

theorem stripSincerely_eq_neg {t : String} (h : strOccurs t "Sincerely" = false) :
    stripSincerely t = t := by
  rw [stripSincerely, if_neg (by rw [h]; exact Bool.false_ne_true)]

theorem stripRegards_eq_pos {t : String} (h : strOccurs t "Regards" = true) :
    stripRegards t = pyStrip (beforeFirst t "Regards") := by
  rw [stripRegards, if_pos h]

theorem stripRegards_eq_neg {t : String} (h : strOccurs t "Regards" = false) :
    stripRegards t = t := by
  rw [stripRegards, if_neg (by rw [h]; exact Bool.false_ne_true)]

theorem stripSincerely_not_occurs (t : String) :
    strOccurs (stripSincerely t) "Sincerely" = false := by
  by_cases h : strOccurs t "Sincerely" = true
  · rw [stripSincerely_eq_pos h]
    exact not_occursL_pyStripL (occursL_beforeFirstL (by decide) t.data)
  · rw [stripSincerely_eq_neg (bool_eq_false h)]
    exact bool_eq_false h

theorem stripSincerely_within (t : String) :
    occursL (stripSincerely t).data t.data = true := by
  by_cases h : strOccurs t "Sincerely" = true
  · rw [stripSincerely_eq_pos h]
    refine occursL_trans (occursL_pyStripL_self _) ?_
    obtain ⟨y, hy⟩ := beforeFirstL_prefix "Sincerely".data t.data
    exact occursL_iff.mpr ⟨[], y, by simpa using hy⟩
  · rw [stripSincerely_eq_neg (bool_eq_false h)]
    exact occursL_iff.mpr ⟨[], [], by simp⟩

theorem stripRegards_not_occurs (t : String) :
    strOccurs (stripRegards t) "Regards" = false := by
  by_cases h : strOccurs t "Regards" = true
  · rw [stripRegards_eq_pos h]
    exact not_occursL_pyStripL (occursL_beforeFirstL (by decide) t.data)
  · rw [stripRegards_eq_neg (bool_eq_false h)]
    exact bool_eq_false h

theorem stripRegards_within (t : String) :
    occursL (stripRegards t).data t.data = true := by
  by_cases h : strOccurs t "Regards" = true
  · rw [stripRegards_eq_pos h]
    refine occursL_trans (occursL_pyStripL_self _) ?_
    obtain ⟨y, hy⟩ := beforeFirstL_prefix "Regards".data t.data
    exact occursL_iff.mpr ⟨[], y, by simpa using hy⟩
  · rw [stripRegards_eq_neg (bool_eq_false h)]
    exact occursL_iff.mpr ⟨[], [], by simp⟩

theorem stripRegards_preserves_not_occurs {p : List Char} {t : String}
    (h : occursL p t.data = false) : occursL p (stripRegards t).data = false :=
  not_occursL_mono (stripRegards_within t) h

theorem stripSignOff_no_sincerely (t : String) :
    strOccurs (stripSignOff t) "Sincerely" = false :=
  stripRegards_preserves_not_occurs (stripSincerely_not_occurs t)

theorem stripSignOff_no_regards (t : String) :
    strOccurs (stripSignOff t) "Regards" = false :=
  stripRegards_not_occurs (stripSincerely t)

theorem stripSignOff_within (t : String) :
    occursL (stripSignOff t).data t.data = true :=
  occursL_trans (stripRegards_within (stripSincerely t)) (stripSincerely_within t)

theorem stripSignOff_idem (t : String) :
    stripSignOff (stripSignOff t) = stripSignOff t := by
  show stripRegards (stripSincerely (stripSignOff t)) = stripSignOff t
  rw [stripSincerely_eq_neg (stripSignOff_no_sincerely t),
    stripRegards_eq_neg (stripSignOff_no_regards t)]

theorem stripSignOff_in_before_marker {t : String} (h : strOccurs t "Sincerely" = true) :
    strOccurs (beforeFirst t "Sincerely") (stripSignOff t) = true := by
  show occursL (stripSignOff t).data (beforeFirst t "Sincerely").data = true
  have h1 : occursL (stripSignOff t).data (stripSincerely t).data = true :=
    stripRegards_within (stripSincerely t)
  rw [stripSincerely_eq_pos h] at h1
  exact occursL_trans h1 (occursL_pyStripL_self _)

/-! ## Counting occurrences: the appended signature block occurs exactly once -/

theorem matchAt_append_self (a b : List Char) : matchAt (a ++ b) b a.length = true := by
  show hasPre ((a ++ b).drop a.length) b = true
  rw [List.drop_left]
  exact hasPre_refl b

theorem occursL_of_matchAt {s p : List Char} {i : ℕ} (h : matchAt s p i = true) :
    occursL p s = true := by
  obtain ⟨r, hr⟩ := hasPre_iff.mp h
  refine occursL_iff.mpr ⟨s.take i, r, ?_⟩
  conv_lhs => rw [← List.take_append_drop i s]
  rw [hr, List.append_assoc]

theorem countP_beq_range {n i : ℕ} (h : i < n) :
    ((List.range n).countP fun j => j == i) = 1 := by
  induction n with
  | zero => omega
  | succ n ih =>
    rw [List.range_succ, List.countP_append]
    by_cases h2 : i < n
    · rw [ih h2]
      have hn : ((n : ℕ) == i) = false := by
        rw [beq_eq_false_iff_ne]
        omega
      simp [List.countP_cons, hn]
    · have hi : i = n := by omega
      subst hi
      have h0 : (List.range i).countP (fun j => j == i) = 0 := by
        rw [List.countP_eq_zero]
        intro a ha
        rw [List.mem_range] at ha
        rw [beq_iff_eq]
        omega
      rw [h0]
      simp [List.countP_cons]

theorem countOccL_eq_one_of_unique {s p : List Char} {i : ℕ} (hi : i < s.length)
    (hu : ∀ j, matchAt s p j = true ↔ j = i) : countOccL s p = 1 := by
  unfold countOccL
  have hcongr : List.countP (fun j => matchAt s p j) (List.range s.length) =
      List.countP (fun j => j == i) (List.range s.length) :=
    List.countP_congr fun j _ => by rw [hu j, beq_iff_eq]
  rw [hcongr]
  exact countP_beq_range hi

theorem occursL_mid (p x y : List Char) : occursL p (x ++ p ++ y) = true :=
  occursL_iff.mpr ⟨x, y, rfl⟩

theorem signaturePrefix_decomp :
    signaturePrefix.data =
      sincerelyFreePre.data ++ "Sincerely".data ++ ",\n".data := by decide

theorem sigBlock_data (n p e : String) :
    (signatureBlock n p e).data =
      signaturePrefix.data ++
        (n.data ++ ("\nPhone: ".data ++ (p.data ++ ("\nEmail: ".data ++ e.data)))) := by
  simp [signatureBlock, String.data_append, List.append_assoc]

theorem occursL_sincerely_siglike (fields : List Char) :
    occursL "Sincerely".data (signaturePrefix.data ++ fields) = true := by
  rw [signaturePrefix_decomp]
  refine occursL_iff.mpr ⟨sincerelyFreePre.data, ",\n".data ++ fields, ?_⟩
  simp [List.append_assoc]

theorem sigOverlapCheck_true : sigOverlapCheck = true := by decide

theorem siglike_match_unique {stripped sig fields : List Char}
    (hsig : sig = signaturePrefix.data ++ fields)
    (hS : occursL "Sincerely".data stripped = false) :
    ∀ i, matchAt (stripped ++ sig) sig i = true → i = stripped.length := by
  intro i hi
  have hi' : hasPre ((stripped ++ sig).drop i) sig = true := hi
  have hpre_pos : 0 < signaturePrefix.data.length := by decide
  have hsig_len : signaturePrefix.data.length ≤ sig.length := by
    rw [hsig, List.length_append]; omega
  have hS_in_sig : occursL "Sincerely".data sig = true := by
    rw [hsig]; exact occursL_sincerely_siglike fields
  have h1 : sig.length ≤ (stripped ++ sig).length - i := by
    have h := hasPre_length hi'
    rwa [List.length_drop] at h
  have hfin_len : (stripped ++ sig).length = stripped.length + sig.length := by
    rw [List.length_append]
  have hsig_pos : 0 < sig.length := by omega
  have hile : i ≤ stripped.length := by omega
  by_contra hne
  have hilt : i < stripped.length := by omega
  have hdrop : (stripped ++ sig).drop i = stripped.drop i ++ sig := by
    rw [List.drop_append_eq_append_drop, Nat.sub_eq_zero_of_le hile, List.drop_zero]
  have hmm : hasPre (stripped.drop i ++ sig) sig = true := by rw [← hdrop]; exact hi'
  have hnotin : ¬ (i + sig.length ≤ stripped.length) := by
    intro hin
    have hm : hasPre (stripped.drop i) sig = true := by
      rwa [hasPre_append_left (by rw [List.length_drop]; omega)] at hmm
    have hocc : occursL sig stripped = true :=
      occursL_of_matchAt (s := stripped) (p := sig) (i := i) hm
    have hSs := occursL_trans hS_in_sig hocc
    rw [hSs] at hS
    cases hS
  have hk0 : 0 < stripped.length - i := by omega
  have hksig : stripped.length - i < sig.length := by omega
  have hu_len : (stripped.drop i).length = stripped.length - i := by
    rw [List.length_drop]
  obtain ⟨r, hr⟩ := hasPre_iff.mp hmm
  have halpha : stripped.drop i = sig.take (stripped.length - i) := by
    have hthis := congrArg (List.take (stripped.length - i)) hr
    rw [List.take_append_eq_append_take, List.take_append_eq_append_take,
      List.take_of_length_le (le_of_eq hu_len), hu_len, Nat.sub_self, List.take_zero,
      List.append_nil, Nat.sub_eq_zero_of_le (le_of_lt hksig), List.take_zero,
      List.append_nil] at hthis
    exact hthis
  have hbeta : hasPre sig (sig.drop (stripped.length - i)) = true := by
    have hthis := congrArg (List.drop (stripped.length - i)) hr
    rw [List.drop_append_eq_append_drop, List.drop_append_eq_append_drop,
      List.drop_eq_nil_of_le (le_of_eq hu_len), hu_len, Nat.sub_self, List.drop_zero,
      List.nil_append, Nat.sub_eq_zero_of_le (le_of_lt hksig), List.drop_zero] at hthis
    exact hasPre_iff.mpr ⟨r, hthis⟩
  have hstr_decomp : stripped = stripped.take i ++ sig.take (stripped.length - i) := by
    conv_lhs => rw [← List.take_append_drop i stripped]
    rw [halpha]
  rcases le_or_lt (sincerelyFreePre.data.length + 9) (stripped.length - i) with hA | hB
  · have hd : sig = (sincerelyFreePre.data ++ "Sincerely".data) ++
        (",\n".data ++ fields) := by
      rw [hsig, signaturePrefix_decomp]
      simp [List.append_assoc]
    have hlenPS : (sincerelyFreePre.data ++ "Sincerely".data).length =
        sincerelyFreePre.data.length + 9 := by
      rw [List.length_append, show ("Sincerely".data).length = 9 from by decide]
    have htake : occursL "Sincerely".data (sig.take (stripped.length - i)) = true := by
      rw [hd, List.take_append_eq_append_take,
        List.take_of_length_le (by omega :
          (sincerelyFreePre.data ++ "Sincerely".data).length ≤ stripped.length - i)]
      exact occursL_mid _ _ _
    have hSstr : occursL "Sincerely".data stripped = true := by
      rw [hstr_decomp]
      exact occursL_append_right htake
    rw [hSstr] at hS
    cases hS
  · have hchk := sigOverlapCheck_true
    rw [sigOverlapCheck, List.all_eq_true] at hchk
    have hkm := hchk (stripped.length - i) (List.mem_range.mpr hB)
    rw [Bool.or_eq_true] at hkm
    rcases hkm with hk_eq | hany
    · rw [beq_iff_eq] at hk_eq
      omega
    · rw [List.any_eq_true] at hany
      obtain ⟨j, hj_mem, hj⟩ := hany
      rw [Bool.and_eq_true] at hj
      obtain ⟨hj_lt, hj_ne⟩ := hj
      rw [decide_eq_true_eq] at hj_lt
      rw [Bool.not_eq_true'] at hj_ne
      have hne_opt : signaturePrefix.data[j]? ≠ signaturePrefix.data[(stripped.length - i) + j]? := by
        intro he
        rw [he] at hj_ne
        simp at hj_ne
      have hj_lt_sig : j < (sig.drop (stripped.length - i)).length := by
        rw [List.length_drop]
        omega
      have hpt := hasPre_getElem? hbeta j hj_lt_sig
      rw [List.getElem?_drop] at hpt
      have e1 : sig[j]? = signaturePrefix.data[j]? := by
        rw [hsig]
        exact List.getElem?_append_left (by omega)
      have e2 : sig[(stripped.length - i) + j]? =
          signaturePrefix.data[(stripped.length - i) + j]? := by
        rw [hsig]
        exact List.getElem?_append_left hj_lt
      rw [e1, e2] at hpt
      exact hne_opt hpt.symm

/-! ## The built system prompt: decomposition and non-containment -/

theorem hasPre_append_self (p r : List Char) : hasPre (p ++ r) p = true :=
  hasPre_iff.mpr ⟨r, rfl⟩

theorem buildSystemPrompt_data (ind reg : String) (amt : ℚ) :
    (buildSystemPrompt ind reg amt).data =
      litigatorHeader.data ++ (ind.data ++ (" | PRIMARY REGULATOR: ".data ++ (reg.data ++
        ("\n\nEXACT LEGAL SECTIONS TO CITE (MANDATORY):\n".data ++ ((regulatoryContext ind).data ++
          ("\n\n".data ++ ((rbiHammer reg amt).data ++ ("\nESCALATION THREAT TO USE:\n".data ++
            ((escalationThreat reg).data ++ ("\n\n".data ++ strictRulesBlock.data)))))))))) := by
  simp [buildSystemPrompt, String.data_append, List.append_assoc]

theorem buildSystemPrompt_not_occurs {pat : String} (ind reg : String) (amt : ℚ)
    (hpc : patternPieceCheck pat = true)
    (hind : occursL pat.data ind.data = false)
    (hindlen : ind.data.length ≤ 14)
    (hreg : occursL pat.data reg.data = false)
    (hreglen : reg.data.length ≤ 14)
    (hR : occursL pat.data (regulatoryContext ind).data = false)
    (hRend : noPreSuffix (regulatoryContext ind).data pat.data = true)
    (hHM : occursL pat.data (rbiHammer reg amt).data = false)
    (hHMend : noPreSuffix (rbiHammer reg amt).data pat.data = true)
    (hE : occursL pat.data (escalationThreat reg).data = false)
    (hEend : noPreSuffix (escalationThreat reg).data pat.data = true) :
    strOccurs (buildSystemPrompt ind reg amt) pat = false := by
  rw [patternPieceCheck] at hpc
  simp only [Bool.and_eq_true, Bool.not_eq_true'] at hpc
  obtain ⟨⟨⟨⟨⟨⟨⟨⟨⟨⟨⟨⟨⟨h1, h2⟩, h3⟩, h4⟩, h5⟩, h6⟩, h7⟩, h8⟩, h9⟩, h10⟩, h11⟩, h12⟩, h13⟩, h14⟩ := hpc
  show occursL pat.data (buildSystemPrompt ind reg amt).data = false
  rw [buildSystemPrompt_data]
  refine occursL_append_false_left h2 h3 ?_
  refine occursL_append_false_right_bounded hind hindlen h6 ?_
  refine occursL_append_false_left h4 h5 ?_
  refine occursL_append_false_right_bounded hreg hreglen h9 ?_
  refine occursL_append_false_left h7 h8 ?_
  refine occursL_append_false_left hR hRend ?_
  refine occursL_append_false_left h10 h11 ?_
  refine occursL_append_false_left hHM hHMend ?_
  refine occursL_append_false_left h12 h13 ?_
  refine occursL_append_false_left hE hEend ?_
  refine occursL_append_false_left h10 h11 ?_
  exact h14

theorem allPatternPieceChecks_true : allPatternPieceChecks = true := by decide

theorem industryScanCheck_true : industryScanCheck = true := by decide

theorem regulatorScanCheck_true : regulatorScanCheck = true := by decide

theorem ruleScanCheck_true : ruleScanCheck = true := by decide

theorem escHammerCheck_true : escHammerCheck = true := by decide

theorem foreignEscCheck_true : foreignEscCheck = true := by decide

theorem hammerEscCheck_true : hammerEscCheck = true := by decide

theorem isoHammerCheck_true : isoHammerCheck = true := by decide

theorem isoEscCheck_true : isoEscCheck = true := by decide

/-! ## Extraction from the decidable bundles -/

theorem pattern_check_of_mem {p : String} (hp : p ∈ promptPatterns) :
    patternPieceCheck p = true := by
  have h := allPatternPieceChecks_true
  rw [allPatternPieceChecks, List.all_eq_true] at h
  exact h p hp

theorem escText_mem_patterns {e : String} (he : e ∈ escalationTexts) :
    e ∈ promptPatterns :=
  List.mem_append_left _ (List.mem_append_left _ he)

theorem hammer_mem : rbiHammerText ∈ promptPatterns :=
  List.mem_append_left _ (List.mem_append_right _ (List.mem_cons_self _ _))

theorem iso_mem {reg : String} (h : reg ∈ regulatorTags) :
    isolationLineFor reg ∈ promptPatterns :=
  List.mem_append_right _ (List.mem_map_of_mem _ h)

theorem pattern_nonempty {p : String} (hp : p ∈ promptPatterns) :
    occursL p.data [] = false := by
  have hpc := pattern_check_of_mem hp
  rw [patternPieceCheck] at hpc
  simp only [Bool.and_eq_true, Bool.not_eq_true'] at hpc
  exact hpc.1.1.1.1.1.1.1.1.1.1.1.1.1

theorem industry_scan {p i : String} (hp : p ∈ promptPatterns) (hi : i ∈ industryTags) :
    occursL p.data i.data = false ∧ i.data.length ≤ 14 := by
  have h := industryScanCheck_true
  rw [industryScanCheck, List.all_eq_true] at h
  have h2 := List.all_eq_true.mp (h p hp) i hi
  simp only [Bool.and_eq_true, Bool.not_eq_true', decide_eq_true_eq] at h2
  exact h2

theorem regulator_scan {p r : String} (hp : p ∈ promptPatterns) (hr : r ∈ regulatorTags) :
    occursL p.data r.data = false ∧ r.data.length ≤ 14 := by
  have h := regulatorScanCheck_true
  rw [regulatorScanCheck, List.all_eq_true] at h
  have h2 := List.all_eq_true.mp (h p hp) r hr
  simp only [Bool.and_eq_true, Bool.not_eq_true', decide_eq_true_eq] at h2
  exact h2

theorem rule_scan {p i : String} (hp : p ∈ promptPatterns) (hi : i ∈ industryTags) :
    occursL p.data (regulatoryContext i).data = false ∧
    noPreSuffix (regulatoryContext i).data p.data = true := by
  have h := ruleScanCheck_true
  rw [ruleScanCheck, List.all_eq_true] at h
  have h2 := List.all_eq_true.mp (h p hp) i hi
  simp only [Bool.and_eq_true, Bool.not_eq_true'] at h2
  exact h2

theorem esc_hammer {e : String} (he : e ∈ escalationTexts) :
    occursL e.data rbiHammerText.data = false ∧
    noPreSuffix rbiHammerText.data e.data = true := by
  have h := escHammerCheck_true
  rw [escHammerCheck, List.all_eq_true] at h
  have h2 := h e he
  simp only [Bool.and_eq_true, Bool.not_eq_true'] at h2
  exact h2

theorem foreign_esc {reg e : String} (hreg : reg ∈ regulatorTags)
    (he : e ∈ escalationTexts) (hne : e ≠ escalationThreat reg) :
    occursL e.data (escalationThreat reg).data = false ∧
    noPreSuffix (escalationThreat reg).data e.data = true := by
  have h := foreignEscCheck_true
  rw [foreignEscCheck, List.all_eq_true] at h
  have h2 := List.all_eq_true.mp (h reg hreg) e he
  simp only [Bool.or_eq_true, Bool.and_eq_true, Bool.not_eq_true', beq_iff_eq] at h2
  rcases h2 with h2 | h2
  · exact absurd h2 hne
  · exact h2

theorem hammer_esc {reg : String} (hreg : reg ∈ regulatorTags) :
    occursL rbiHammerText.data (escalationThreat reg).data = false ∧
    noPreSuffix (escalationThreat reg).data rbiHammerText.data = true := by
  have h := hammerEscCheck_true
  rw [hammerEscCheck, List.all_eq_true] at h
  have h2 := h reg hreg
  simp only [Bool.and_eq_true, Bool.not_eq_true'] at h2
  exact h2

theorem iso_hammer {reg : String} (hreg : reg ∈ regulatorTags) :
    occursL (isolationLineFor reg).data rbiHammerText.data = false ∧
    noPreSuffix rbiHammerText.data (isolationLineFor reg).data = true := by
  have h := isoHammerCheck_true
  rw [isoHammerCheck, List.all_eq_true] at h
  have h2 := h reg hreg
  simp only [Bool.and_eq_true, Bool.not_eq_true'] at h2
  exact h2

theorem iso_esc {reg r2 : String} (hreg : reg ∈ regulatorTags) (hr2 : r2 ∈ regulatorTags) :
    occursL (isolationLineFor r2).data (escalationThreat reg).data = false ∧
    noPreSuffix (escalationThreat reg).data (isolationLineFor r2).data = true := by
  have h := isoEscCheck_true
  rw [isoEscCheck, List.all_eq_true] at h
  have h2 := List.all_eq_true.mp (h reg hreg) r2 hr2
  simp only [Bool.and_eq_true, Bool.not_eq_true'] at h2
  exact h2

theorem escalationThreat_mem {reg : String} (h : reg ∈ regulatorTags) :
    escalationThreat reg ∈ escalationTexts := by
  fin_cases h <;> decide

theorem rbiHammer_cases (reg : String) (amt : ℚ) :
    rbiHammer reg amt = rbiHammerText ∨ rbiHammer reg amt = "" := by
  unfold rbiHammer
  split
  · exact Or.inl rfl
  · exact Or.inr rfl

theorem hammer_facts (reg : String) (amt : ℚ) {pat : String}
    (hp0 : occursL pat.data [] = false)
    (hHM : occursL pat.data rbiHammerText.data = false)
    (hHMend : noPreSuffix rbiHammerText.data pat.data = true) :
    occursL pat.data (rbiHammer reg amt).data = false ∧
    noPreSuffix (rbiHammer reg amt).data pat.data = true := by
  rcases rbiHammer_cases reg amt with h | h <;> rw [h]
  · exact ⟨hHM, hHMend⟩
  · exact ⟨hp0, noPreSuffix_nil pat.data⟩

/-- The master non-containment theorem with the tag-scan hypotheses
discharged from the decidable bundles. -/
theorem buildSystemPrompt_free {pat ind reg : String} {amt : ℚ}
    (hpat : pat ∈ promptPatterns) (hind : ind ∈ industryTags) (hreg : reg ∈ regulatorTags)
    (hHM : occursL pat.data (rbiHammer reg amt).data = false)
    (hHMend : noPreSuffix (rbiHammer reg amt).data pat.data = true)
    (hE : occursL pat.data (escalationThreat reg).data = false)
    (hEend : noPreSuffix (escalationThreat reg).data pat.data = true) :
    strOccurs (buildSystemPrompt ind reg amt) pat = false := by
  have hpc := pattern_check_of_mem hpat
  have hi := industry_scan hpat hind
  have hr := regulator_scan hpat hreg
  have hrule := rule_scan hpat hind
  exact buildSystemPrompt_not_occurs ind reg amt hpc hi.1 hi.2 hr.1 hr.2
    hrule.1 hrule.2 hHM hHMend hE hEend

/-! ## Positional containment in the built prompt -/

theorem prompt_contains_escalation (ind reg : String) (amt : ℚ) :
    strOccurs (buildSystemPrompt ind reg amt) (escalationThreat reg) = true := by
  show occursL (escalationThreat reg).data (buildSystemPrompt ind reg amt).data = true
  rw [buildSystemPrompt_data]
  refine occursL_append_right (occursL_append_right (occursL_append_right
    (occursL_append_right (occursL_append_right (occursL_append_right
    (occursL_append_right (occursL_append_right (occursL_append_right ?_))))))))
  exact occursL_of_hasPre (hasPre_append_self _ _)

theorem prompt_contains_hammerText (ind reg : String) (amt : ℚ)
    (h : rbiHammer reg amt = rbiHammerText) :
    strOccurs (buildSystemPrompt ind reg amt) rbiHammerText = true := by
  show occursL rbiHammerText.data (buildSystemPrompt ind reg amt).data = true
  rw [buildSystemPrompt_data]
  refine occursL_append_right (occursL_append_right (occursL_append_right
    (occursL_append_right (occursL_append_right (occursL_append_right
    (occursL_append_right ?_))))))
  rw [h]
  exact occursL_of_hasPre (hasPre_append_self _ _)

theorem strictRules_decomp :
    strictRulesBlock.data =
      strictRulesPre.data ++ isolationRuleLine.data ++ strictRulesTail.data := by decide

theorem prompt_contains_isolation (ind reg : String) (amt : ℚ) :
    strOccurs (buildSystemPrompt ind reg amt) isolationRuleLine = true := by
  show occursL isolationRuleLine.data (buildSystemPrompt ind reg amt).data = true
  rw [buildSystemPrompt_data]
  refine occursL_append_right (occursL_append_right (occursL_append_right
    (occursL_append_right (occursL_append_right (occursL_append_right
    (occursL_append_right (occursL_append_right (occursL_append_right
    (occursL_append_right (occursL_append_right ?_))))))))))
  rw [strictRules_decomp]
  exact occursL_mid _ _ _

/-! ## Evaluation lemmas for the validators and handlers -/

theorem validateAmount_none_of {s : String}
    (h : parseAmount? (stripAmount s).data = none) : validateAmount s = none := by
  simp only [validateAmount]
  rw [h]

theorem validateAmount_pos_of {s : String} {q : ℚ}
    (h : parseAmount? (stripAmount s).data = some q) (h0 : 0 < q) :
    validateAmount s = some (stripAmount s) := by
  simp only [validateAmount]
  rw [h]
  simp [h0]

theorem validateAmount_nonpos_of {s : String} {q : ℚ}
    (h : parseAmount? (stripAmount s).data = some q) (h0 : ¬ 0 < q) :
    validateAmount s = none := by
  simp only [validateAmount]
  rw [h]
  simp [h0]

theorem validateAmount_none_iff {s : String} :
    validateAmount s = none ↔
      ∀ q, parseAmount? (stripAmount s).data = some q → ¬ 0 < q := by
  constructor
  · intro h q hq h0
    rw [validateAmount_pos_of hq h0] at h
    exact Option.noConfusion h
  · intro hall
    cases hp : parseAmount? (stripAmount s).data with
    | none => exact validateAmount_none_of hp
    | some q => exact validateAmount_nonpos_of hp (hall q hp)

theorem validateAmount_some_inv {s clean : String}
    (h : validateAmount s = some clean) :
    clean = stripAmount s ∧
    ∃ q, parseAmount? (stripAmount s).data = some q ∧ 0 < q := by
  cases hp : parseAmount? (stripAmount s).data with
  | none =>
    rw [validateAmount_none_of hp] at h
    exact Option.noConfusion h
  | some q =>
    by_cases h0 : 0 < q
    · rw [validateAmount_pos_of hp h0] at h
      injection h with h2
      exact ⟨h2.symm, q, rfl, h0⟩
    · rw [validateAmount_nonpos_of hp h0] at h
      exact Option.noConfusion h

theorem decorated_filter {core s : List Char} (h : Decorated core s) :
    s.filter isAmountChar = core := by
  induction h with
  | nil => rfl
  | keep hc _ ih => simp [List.filter_cons, hc, ih]
  | skip hc _ ih => simp [List.filter_cons, hc, ih]

theorem pyStripL_length_le (l : List Char) : (pyStripL l).length ≤ l.length := by
  obtain ⟨x, y, hxy⟩ := pyStripL_within l
  have h := congrArg List.length hxy
  rw [List.length_append, List.length_append] at h
  omega

theorem pySplitChar_no_sep {c : Char} {l : List Char} (h : occursL [c] l = false) :
    pySplitChar c l = [l] := by
  induction l with
  | nil => rfl
  | cons d t ih =>
    simp only [occursL, Bool.or_eq_false_iff] at h
    obtain ⟨ha, hb⟩ := h
    have hd : (d == c) = false := by
      have he : hasPre (d :: t) [c] = (d == c && hasPre t []) := rfl
      have hpt : hasPre t [] = true := by cases t <;> rfl
      rw [he, hpt, Bool.and_true] at ha
      exact ha
    simp only [pySplitChar]
    rw [ih hb]
    simp [hd]

/-- The assembled draft body holds the appended signature block exactly
once, whatever the model produced: the stripped text is marker-free, so no
other full occurrence of the block fits anywhere. -/
theorem draftBody_sig_once (raw un up ue : String) :
    strCount (draftBody raw un up ue) (signatureBlock un up ue) = 1 := by
  have hS : occursL "Sincerely".data (stripSignOff (pyStrip raw)).data = false :=
    stripSignOff_no_sincerely (pyStrip raw)
  have hsig := sigBlock_data un up ue
  have huniq := siglike_match_unique hsig hS
  have hdata : (draftBody raw un up ue).data =
      (stripSignOff (pyStrip raw)).data ++ (signatureBlock un up ue).data := by
    simp [draftBody, String.data_append]
  show countOccL (draftBody raw un up ue).data (signatureBlock un up ue).data = 1
  rw [hdata]
  have hpos : 0 < (signatureBlock un up ue).data.length := by
    rw [hsig, List.length_append]
    have h9 : 0 < signaturePrefix.data.length := by decide
    omega
  refine countOccL_eq_one_of_unique
    (i := (stripSignOff (pyStrip raw)).data.length) ?_ ?_
  · rw [List.length_append]
    omega
  · intro j
    constructor
    · exact huniq j
    · intro hj
      rw [hj]
      exact matchAt_append_self _ _

/-! ## The claims -/

/-- C1: for every industry tag, regulator tag and amount, the built system
prompt contains the escalation track selected for that regulator (one of
the four pairwise-distinct track texts), and never contains the
escalation-track text reserved for a different regulator. -/
theorem c1_escalation_track_isolation (ind reg : String) (amt : ℚ)
    (hind : ind ∈ industryTags) (hreg : reg ∈ regulatorTags) :
    escalationTexts.Nodup ∧
    escalationThreat reg ∈ escalationTexts ∧
    strOccurs (buildSystemPrompt ind reg amt) (escalationThreat reg) = true ∧
    ∀ e ∈ escalationTexts, e ≠ escalationThreat reg →
      strOccurs (buildSystemPrompt ind reg amt) e = false := by
  refine ⟨by decide, escalationThreat_mem hreg, prompt_contains_escalation ind reg amt, ?_⟩
  intro e he hne
  have hmem := escText_mem_patterns he
  have hfe := foreign_esc hreg he hne
  have heh := esc_hammer he
  have hhm := hammer_facts reg amt (pattern_nonempty hmem) heh.1 heh.2
  exact buildSystemPrompt_free hmem hind hreg hhm.1 hhm.2 hfe.1 hfe.2

/-- Witness for C1 at industry `"Banking"`, regulator `"RBI"`, amount 500:
the prompt carries the RBI track and not the DGCA track. -/
theorem c1_witness :
    ("Banking" ∈ industryTags ∧ "RBI" ∈ regulatorTags) ∧
    strOccurs (buildSystemPrompt "Banking" "RBI" 500) (escalationThreat "RBI") = true ∧
    strOccurs (buildSystemPrompt "Banking" "RBI" 500) dgcaEscalation = false := by
  have h := c1_escalation_track_isolation "Banking" "RBI" 500 (by decide) (by decide)
  exact ⟨⟨by decide, by decide⟩, h.2.2.1, h.2.2.2 dgcaEscalation (by decide) (by decide)⟩

/-- C2 (amended): for every industry tag and regulator tag, the built
prompt contains the monetary-threshold clause exactly when the regulator
is `"RBI"` and `0 < amount ≤ 25000`; the source demands a strictly
positive amount, so an amount of 0 (which is at or below 25,000) does not
activate the clause. -/
theorem c2_monetary_threshold (ind reg : String) (amt : ℚ)
    (hind : ind ∈ industryTags) (hreg : reg ∈ regulatorTags) :
    strOccurs (buildSystemPrompt ind reg amt) rbiHammerText =
      (reg == "RBI" && decide (0 < amt) && decide (amt ≤ 25000)) := by
  by_cases hc : (reg == "RBI" && decide (0 < amt) && decide (amt ≤ 25000)) = true
  · rw [hc]
    refine prompt_contains_hammerText ind reg amt ?_
    unfold rbiHammer
    rw [if_pos hc]
  · rw [bool_eq_false hc]
    have hoff : rbiHammer reg amt = "" := by
      unfold rbiHammer
      rw [if_neg hc]
    have heh := hammer_esc hreg
    refine buildSystemPrompt_free hammer_mem hind hreg ?_ ?_ heh.1 heh.2
    · rw [hoff]
      exact pattern_nonempty hammer_mem
    · rw [hoff]
      exact noPreSuffix_nil _

/-- Witness for C2 at industry `"Banking"`, regulator `"RBI"`, amount 500. -/
theorem c2_witness :
    ("Banking" ∈ industryTags ∧ "RBI" ∈ regulatorTags) ∧
    strOccurs (buildSystemPrompt "Banking" "RBI" 500) rbiHammerText =
      ("RBI" == "RBI" && decide ((0 : ℚ) < 500) && decide ((500 : ℚ) ≤ 25000)) :=
  ⟨⟨by decide, by decide⟩, c2_monetary_threshold "Banking" "RBI" 500 (by decide) (by decide)⟩

/-- Counterexample to C2 as claimed: the amount 0 is at or below 25,000
and the regulator is `"RBI"`, yet the built prompt does not contain the
monetary-threshold clause (the source also requires `0 < amount`). -/
theorem c2_counterexample :
    (0 : ℚ) ≤ 25000 ∧
    strOccurs (buildSystemPrompt "Banking" "RBI" 0) rbiHammerText = false := by
  constructor
  · norm_num
  · have hc : ("RBI" == "RBI" && decide ((0 : ℚ) < 0) && decide ((0 : ℚ) ≤ 25000)) = false := by
      simp
    have hoff : rbiHammer "RBI" 0 = "" := by
      unfold rbiHammer
      rw [if_neg (ne_true_of_eq_false hc)]
    have heh := hammer_esc (show "RBI" ∈ regulatorTags by decide)
    refine buildSystemPrompt_free hammer_mem (by decide) (by decide) ?_ ?_ heh.1 heh.2
    · rw [hoff]
      exact pattern_nonempty hammer_mem
    · rw [hoff]
      exact noPreSuffix_nil _

/-- C9: for every industry, regulator and amount, the built prompt carries
the REGULATORY ISOLATION rule line with the literal two-character-braced
placeholder text still in it (the line is a plain string in the source,
not an f-string), and for the repository's tags the regulator-substituted
variant of the line never occurs. -/
theorem c9_literal_placeholder (ind reg : String) (amt : ℚ) :
    strOccurs isolationRuleLine "\x7bregulator\x7d" = true ∧
    strOccurs (buildSystemPrompt ind reg amt) isolationRuleLine = true ∧
    strOccurs (buildSystemPrompt ind reg amt) "\x7bregulator\x7d" = true ∧
    (ind ∈ industryTags → reg ∈ regulatorTags →
      strOccurs (buildSystemPrompt ind reg amt) (isolationLineFor reg) = false) := by
  have h1 : strOccurs isolationRuleLine "\x7bregulator\x7d" = true := by decide
  have h2 := prompt_contains_isolation ind reg amt
  refine ⟨h1, h2, occursL_trans h1 h2, ?_⟩
  intro hind hreg
  have hmem := iso_mem hreg
  have hih := iso_hammer hreg
  have hie := iso_esc hreg hreg
  have hhm := hammer_facts reg amt (pattern_nonempty hmem) hih.1 hih.2
  exact buildSystemPrompt_free hmem hind hreg hhm.1 hhm.2 hie.1 hie.2

/-- Witness for C9 at industry `"Banking"`, regulator `"RBI"`, amount 500. -/
theorem c9_witness :
    strOccurs (buildSystemPrompt "Banking" "RBI" 500) "\x7bregulator\x7d" = true ∧
    strOccurs (buildSystemPrompt "Banking" "RBI" 500) (isolationLineFor "RBI") = false := by
  have h := c9_literal_placeholder "Banking" "RBI" 500
  exact ⟨h.2.2.1, h.2.2.2 (by decide) (by decide)⟩

/-- C3 (amended): when the Generation Service reply carries the ready
sentinel (detected by substring match), the extraction payload is the text
between the reply's first and second `"|"` — not everything after the
sentinel; a sentinel reply with no `"|"` hits the catch-all handler, which
raises HTTP 500 rather than a retryable drafting failure; and a reply
without the sentinel is passed through as a question. -/
theorem c3_triage_payload (botReply : String)
    (h : strOccurs botReply readySentinel = true) :
    (occursL ['|'] botReply.data = false →
      triageReplyHandler botReply = TriageOutcome.httpError 500 triageErrorDetail) ∧
    (∀ seg, (pySplitChar '|' botReply.data).get? 1 = some seg →
      triageReplyHandler botReply =
        TriageOutcome.complete triageCompleteReply (pyStrip (String.mk seg))) ∧
    (∀ reply2, strOccurs reply2 readySentinel = false →
      triageReplyHandler reply2 = TriageOutcome.asking reply2) := by
  refine ⟨?_, ?_, ?_⟩
  · intro hp
    unfold triageReplyHandler
    rw [if_pos h, pySplitChar_no_sep hp]
    rfl
  · intro seg hseg
    unfold triageReplyHandler
    rw [if_pos h, hseg]
  · intro reply2 h2
    unfold triageReplyHandler
    rw [if_neg (ne_true_of_eq_false h2)]

/-- Witness for C3 at a sentinel reply whose first pipe precedes the
sentinel. -/
theorem c3_witness :
    strOccurs triageReplyPipes readySentinel = true ∧
    ((occursL ['|'] triageReplyPipes.data = false →
      triageReplyHandler triageReplyPipes = TriageOutcome.httpError 500 triageErrorDetail) ∧
    (∀ seg, (pySplitChar '|' triageReplyPipes.data).get? 1 = some seg →
      triageReplyHandler triageReplyPipes =
        TriageOutcome.complete triageCompleteReply (pyStrip (String.mk seg))) ∧
    (∀ reply2, strOccurs reply2 readySentinel = false →
      triageReplyHandler reply2 = TriageOutcome.asking reply2)) :=
  ⟨by decide, c3_triage_payload triageReplyPipes (by decide)⟩

/-- Counterexample to C3 as claimed: for the sentinel reply
`"Pick A|B first. [READY_FOR_DRAFT] | order: 7"` the code's payload is the
text between the two pipes (it still contains the sentinel and is handed
to the caller as user data), while everything after the sentinel would be
`"| order: 7"`. -/
theorem c3_counterexample :
    strOccurs triageReplyPipes readySentinel = true ∧
    triageReplyHandler triageReplyPipes =
      TriageOutcome.complete triageCompleteReply "B first. [READY_FOR_DRAFT]" ∧
    specPayloadAfterSentinel triageReplyPipes = "| order: 7" := by decide

/-- C4 (amended): `generate_legal_draft` issues exactly one Generation
Service call — a rate-limited outcome is not retried and is surfaced at
once as the 502 busy error, any other failure is surfaced the same way,
and the result depends only on the first call's outcome. -/
theorem c4_no_retry (svc : ℕ → GenOutcome) (p : DisputePayload) (targetEmail : String) :
    (svc 0 = GenOutcome.rateLimited →
      generateLegalDraft svc p targetEmail = Except.error (502, serviceBusyDetail)) ∧
    (svc 0 = GenOutcome.failure →
      generateLegalDraft svc p targetEmail = Except.error (502, serviceBusyDetail)) ∧
    (∀ svc2 : ℕ → GenOutcome, svc2 0 = svc 0 →
      generateLegalDraft svc2 p targetEmail = generateLegalDraft svc p targetEmail) := by
  refine ⟨?_, ?_, ?_⟩
  · intro h
    unfold generateLegalDraft
    rw [h]
  · intro h
    unfold generateLegalDraft
    rw [h]
  · intro svc2 h
    unfold generateLegalDraft
    rw [h]

/-- Witness for C4 at the rate-limited-then-ok oracle. -/
theorem c4_witness :
    rateLimitedThenOk 0 = GenOutcome.rateLimited ∧
    generateLegalDraft rateLimitedThenOk samplePayload "legal@example.com" =
      Except.error (502, serviceBusyDetail) :=
  ⟨rfl, (c4_no_retry rateLimitedThenOk samplePayload "legal@example.com").1 rfl⟩

/-- Counterexample to C4 as claimed: the first call is rate limited and
every later call would succeed, so a retry with backoff would return a
draft — yet the request fails at once with the 502 busy error. -/
theorem c4_counterexample :
    rateLimitedThenOk 0 = GenOutcome.rateLimited ∧
    rateLimitedThenOk 1 = GenOutcome.ok "NOTICE BODY" ∧
    generateLegalDraft rateLimitedThenOk samplePayload "grievance@swiggy.in" =
      Except.error (502, serviceBusyDetail) ∧
    serviceBusyDetail = "Strike engine unavailable. Please retry in a moment." :=
  ⟨rfl, rfl, rfl, rfl⟩

/-- C5: the sign-off stripping of draft assembly is idempotent; on text
holding a `"Sincerely"` marker it returns a piece of the text before the
first marker, free of both markers; and the assembled draft body contains
the deterministically appended signature block exactly once. -/
theorem c5_signature_stripping :
    (∀ t, stripSignOff (stripSignOff t) = stripSignOff t) ∧
    (∀ t, strOccurs t "Sincerely" = true →
      strOccurs (stripSignOff t) "Sincerely" = false ∧
      strOccurs (stripSignOff t) "Regards" = false ∧
      strOccurs (beforeFirst t "Sincerely") (stripSignOff t) = true) ∧
    (∀ raw un up ue, strCount (draftBody raw un up ue) (signatureBlock un up ue) = 1) :=
  ⟨stripSignOff_idem,
   fun t h => ⟨stripSignOff_no_sincerely t, stripSignOff_no_regards t,
     stripSignOff_in_before_marker h⟩,
   draftBody_sig_once⟩

/-- Witness for C5 at a raw draft that already carries a sign-off. -/
theorem c5_witness :
    stripSignOff (stripSignOff "BODY Sincerely,\nAsha") = stripSignOff "BODY Sincerely,\nAsha" ∧
    (strOccurs (stripSignOff "BODY Sincerely,\nAsha") "Sincerely" = false ∧
     strOccurs (stripSignOff "BODY Sincerely,\nAsha") "Regards" = false ∧
     strOccurs (beforeFirst "BODY Sincerely,\nAsha" "Sincerely")
       (stripSignOff "BODY Sincerely,\nAsha") = true) ∧
    strCount (draftBody "BODY Sincerely,\nAsha" "Asha Rao" "9999999999" "asha@example.com")
      (signatureBlock "Asha Rao" "9999999999" "asha@example.com") = 1 :=
  ⟨c5_signature_stripping.1 "BODY Sincerely,\nAsha",
   c5_signature_stripping.2.1 "BODY Sincerely,\nAsha" (by decide),
   c5_signature_stripping.2.2 "BODY Sincerely,\nAsha" "Asha Rao" "9999999999"
     "asha@example.com"⟩

/-- C6: the amount validator keeps exactly the digit-or-dot characters;
it fails precisely when the remainder does not parse as a number strictly
greater than zero; on success it returns the canonicalized numeric string,
whose parse is positive; and on any decoration of a numeral with
formatting characters the canonical string is that numeral itself. -/
theorem c6_amount_validation (s : String) :
    (stripAmount s).data = s.data.filter isAmountChar ∧
    (validateAmount s = none ↔
      ∀ q, parseAmount? (stripAmount s).data = some q → ¬ 0 < q) ∧
    (∀ clean, validateAmount s = some clean →
      clean = stripAmount s ∧
      ∃ q, parseAmount? (stripAmount s).data = some q ∧ 0 < q) ∧
    (∀ core, Decorated core s.data → (stripAmount s).data = core) :=
  ⟨rfl, validateAmount_none_iff, fun _ h => validateAmount_some_inv h,
   fun _ h => decorated_filter h⟩

/-- Witness for C6: the input `"₹1,234.50"` is the numeral `"1234.50"`
decorated with a currency sign and a comma, and sanitization recovers the
numeral exactly. -/
theorem c6_witness :
    (stripAmount "₹1,234.50").data = "1234.50".data :=
  (c6_amount_validation "₹1,234.50").2.2.2 "1234.50".data
    (Decorated.skip (by decide)
      (Decorated.keep (by decide)
        (Decorated.skip (by decide)
          (Decorated.keep (by decide)
            (Decorated.keep (by decide)
              (Decorated.keep (by decide)
                (Decorated.keep (by decide)
                  (Decorated.keep (by decide)
                    (Decorated.keep (by decide) Decorated.nil)))))))))

/-- C7 (amended): a marker-free narrative longer than 1000 characters is
truncated to its first 1000 characters and then stripped, so the validated
result has length at most 1000 — and strictly less when the kept prefix
ends (or begins) with whitespace. -/
theorem c7_truncation (v : String) (h1 : hasInjection v = false)
    (h2 : 1000 < v.data.length) :
    sanitizeAndTruncate v = some (pyStrip (String.mk (v.data.take 1000))) ∧
    ∀ w, sanitizeAndTruncate v = some w → w.data.length ≤ 1000 := by
  have he : sanitizeAndTruncate v = some (pyStrip (String.mk (v.data.take 1000))) := by
    unfold sanitizeAndTruncate
    rw [if_neg (ne_true_of_eq_false h1)]
  refine ⟨he, ?_⟩
  intro w hw
  rw [he] at hw
  injection hw with hw2
  rw [← hw2]
  calc (pyStrip (String.mk (v.data.take 1000))).data.length
      ≤ (v.data.take 1000).length := pyStripL_length_le _
    _ ≤ 1000 := by
        rw [List.length_take]
        exact min_le_left _ _

/-- Witness for C7 at a 1001-character narrative of `'x'`s. -/
theorem c7_witness :
    hasInjection narrativeAllX = false ∧
    1000 < narrativeAllX.data.length ∧
    (sanitizeAndTruncate narrativeAllX =
      some (pyStrip (String.mk (narrativeAllX.data.take 1000))) ∧
    ∀ w, sanitizeAndTruncate narrativeAllX = some w → w.data.length ≤ 1000) :=
  ⟨by decide, by decide, c7_truncation narrativeAllX (by decide) (by decide)⟩

/-- Counterexample to C7 as claimed: a 1001-character marker-free
narrative whose 1000-character prefix ends in whitespace validates to a
999-character result, not to exactly 1000 characters. -/
theorem c7_counterexample :
    hasInjection narrativeWithTrailingBlanks = false ∧
    1000 < narrativeWithTrailingBlanks.data.length ∧
    sanitizeAndTruncate narrativeWithTrailingBlanks =
      some (String.mk (List.replicate 999 'x')) ∧
    (String.mk (List.replicate 999 'x')).data.length = 999 := by
  refine ⟨by decide, by decide, by decide, by decide⟩

/-- C8 (amended): when the embedding call raises (the service is
unreachable) the chat request still answers 200, but with the fixed
recalibrating-error reply, not a consumer-protection fallback; a non-200
embedding response leaves the zero query vector, skips retrieval, and
falls back to the generic Consumer Protection Act framing. -/
theorem c8_embedding_failure (env : ChatEnv) (msg : String)
    (hexp : env.expansionOutcome ≠ none) :
    (env.embedOutcome = EmbedOutcome.unreachable →
      karmaChatText env msg = recalibratingReply) ∧
    (env.embedOutcome = EmbedOutcome.badStatus →
      karmaChatText env msg = runLegalWarRoom msg "" ∧
      runLegalWarRoom msg "" =
        "Under the Consumer Protection Act 2019, regarding: " ++ msg) := by
  obtain ⟨s, hs⟩ : ∃ s, env.expansionOutcome = some s := by
    cases he : env.expansionOutcome with
    | none => exact absurd he hexp
    | some s => exact ⟨s, rfl⟩
  constructor
  · intro h
    unfold karmaChatText
    rw [hs, h]
  · intro h
    refine ⟨?_, rfl⟩
    unfold karmaChatText
    rw [hs, h]

/-- Witness for C8 at the bad-status oracle: the reply degrades to the
generic consumer-protection framing. -/
theorem c8_witness :
    karmaChatText envEmbedBadStatus "refund" = runLegalWarRoom "refund" "" ∧
    runLegalWarRoom "refund" "" =
      "Under the Consumer Protection Act 2019, regarding: " ++ "refund" :=
  (c8_embedding_failure envEmbedBadStatus "refund" (by decide)).2 rfl

/-- Counterexample to C8 as claimed: with the embedding service
unreachable the chat reply is the fixed recalibrating-error text, which is
not the generic consumer-protection framing. -/
theorem c8_counterexample :
    karmaChatText envEmbedUnreachable "refund" = recalibratingReply ∧
    recalibratingReply ≠
      "Under the Consumer Protection Act 2019, regarding: " ++ "refund" := by
  constructor
  · rfl
  · decide

/-- C10: the injection scan reads the full, untruncated narrative — the
validator rejects exactly when the lower-cased full text holds a denylist
marker, and in particular a `"system:"` marker anywhere (even past the
1000-character truncation point) forces rejection. -/
theorem c10_scan_before_truncation (v : String) :
    (sanitizeAndTruncate v = none ↔ hasInjection v = true) ∧
    (strOccurs (pyLower v) "system:" = true → sanitizeAndTruncate v = none) := by
  constructor
  · unfold sanitizeAndTruncate
    by_cases h : hasInjection v = true
    · rw [if_pos h]
      simp [h]
    · rw [if_neg h]
      constructor
      · intro hc
        exact Option.noConfusion hc
      · intro hc
        exact absurd hc h
  · intro hm
    have hinj : hasInjection v = true := by
      unfold hasInjection
      rw [List.any_eq_true]
      exact ⟨"system:", by decide, hm⟩
    unfold sanitizeAndTruncate
    rw [if_pos hinj]

/-- Witness for C10 at a narrative whose only marker starts after the
1000-character truncation point. -/
theorem c10_witness :
    strOccurs (pyLower narrativeLateMarker) "system:" = true ∧
    sanitizeAndTruncate narrativeLateMarker = none :=
  ⟨by decide, (c10_scan_before_truncation narrativeLateMarker).2 (by decide)⟩
